import Mathlib

/-!
Verification of the SpecMate report synthesis engine.

This file is a shallow embedding of the report generator
(`generateMarkdownReport`, `generateMaterialSection`,
`getConsultantsForDivisions`, `getSuppliersForMaterials`,
`buildPDFDocument`) together with proofs of the behavioural
properties claimed by the specification.

Modelling conventions:
- JavaScript stable `Array.prototype.sort` is modelled by a left fold of a
  stable insertion (`sortStable`); a comparator result of NaN is treated as
  +0, as required by the ECMAScript SortCompare operation.
- JavaScript object-key enumeration order for non-index string keys, and
  Set iteration order, are both first-occurrence insertion order, modelled
  by `insertionDedup`.
- `Date.toLocaleString` is environment dependent but deterministic within
  one environment; it is passed to the renderer as a function parameter.
- The paginated renderer is modelled at the content level (the ordered
  sequence of emitted sections, cards and fields); geometry (text widths,
  cursor position, page breaks) does not affect the content order or the
  conditional inclusion of sections, which is what the claims are about.
-/

namespace SpecMate

/-! ## Data model (from the TypeScript interfaces in the types module) -/

/-- TS `Alternative`: name, description, tradeoffs. -/
structure Alternative where
  name : String
  description : String
  tradeoffs : String
deriving DecidableEq, Repr

/-- TS `tier: 1 | 2 | 3`. -/
inductive Tier where
  | t1
  | t2
  | t3
deriving DecidableEq, Repr

/-- Numeric value of a tier, for the `a.tier - b.tier` comparator. -/
def Tier.toInt : Tier → Int
  | .t1 => 1
  | .t2 => 2
  | .t3 => 3

/-- TS `Material`. -/
structure Material where
  name : String
  description : String
  properties : List String
  tier : Tier
  reasoning : String
  csiDivision : String
  csiNumber : String
  sustainabilityNotes : Option String := none
  alternatives : Option (List Alternative) := none
  codeCompliance : Option String := none
deriving DecidableEq, Repr

/-- TS coordinates `{ lat: number; lng: number }` (unused by the engine). -/
structure Coordinates where
  lat : Float
  lng : Float

/-- TS `ProjectLocation`. -/
structure ProjectLocation where
  input : String
  coordinates : Coordinates
  jurisdiction : Option String := none
  buildingCode : Option String := none

/-- TS `ProjectBrief`. -/
structure ProjectBrief where
  text : String
  intent : Option String := none

/-- TS `Analysis`. -/
structure Analysis where
  imageUrls : List String
  materials : List Material
  timestamp : String
  includeSustainability : Bool
  includeAlternatives : Bool
  location : Option ProjectLocation := none
  brief : Option ProjectBrief := none

/-- Derived `Supplier.rating: 'local' | 'national'`. -/
inductive Rating where
  | local'
  | national'
deriving DecidableEq, Repr

/-- Derived `Consultant` record. -/
structure Consultant where
  name : String
  firm : String
  specialty : String
  email : String
  phone : String
  website : Option String := none
  disciplines : List String
deriving DecidableEq, Repr

/-- Derived `Supplier` record. -/
structure Supplier where
  name : String
  company : String
  location : String
  materialTypes : List String
  email : String
  phone : String
  website : Option String := none
  rating : Rating
  specialties : List String
deriving DecidableEq, Repr

/-! ## JavaScript semantics helpers -/

/-- Truthiness of an optional string in JS: present and nonempty. -/
def jsTruthy : Option String → Bool
  | some s => !(s == "")
  | none => false

/-- Models a JS string template piece built by
`s.toLowerCase().replace(~whitespace~, '')`. -/
def condense (s : String) : String :=
  ⟨s.toLower.data.filter (fun c => !c.isWhitespace)⟩

/-- Accumulator pass of `insertionDedup`: keeps the first occurrence of each
element, in encounter order (JS object-key / Set iteration order for
non-index string keys). -/
def insertionDedupAux [DecidableEq α] (seen : List α) : List α → List α
  | [] => []
  | x :: xs =>
    if x ∈ seen then insertionDedupAux seen xs
    else x :: insertionDedupAux (x :: seen) xs

/-- First-occurrence deduplication in encounter order. -/
def insertionDedup [DecidableEq α] (l : List α) : List α :=
  insertionDedupAux [] l

/-- Modelled from the spec: deduplication "in insertion order" written as
the canonical first-occurrence recursion — keep the head, drop its later
duplicates, recurse.  Stated separately from the accumulator-based
`insertionDedup` transcribed from the source so the two can be proved
equal. -/
def firstOccurrenceDedup [DecidableEq α] : List α → List α
  | [] => []
  | x :: xs => x :: firstOccurrenceDedup (xs.filter (fun y => !(y == x)))
termination_by l => l.length
decreasing_by
  simp only [List.length_cons]
  exact Nat.lt_succ_of_le (List.length_filter_le _ _)

/-- Characters of a string before the first occurrence of the separator
three-character sequence space, dash, space; the whole string when the
separator does not occur.  This is JS `s.split(' - ')[0]`. -/
def splitFirst : List Char → List Char
  | [] => []
  | [c] => [c]
  | [c, d] => [c, d]
  | c1 :: c2 :: c3 :: rest =>
    if c1 = ' ' ∧ c2 = '-' ∧ c3 = ' ' then []
    else c1 :: splitFirst (c2 :: c3 :: rest)

/-- Characters strictly after the first occurrence of the separator, or
`none` when the separator does not occur. -/
def splitRest : List Char → Option (List Char)
  | [] => none
  | [_] => none
  | [_, _] => none
  | c1 :: c2 :: c3 :: rest =>
    if c1 = ' ' ∧ c2 = '-' ∧ c3 = ' ' then some rest
    else splitRest (c2 :: c3 :: rest)

/-- JS `s.split(' - ')[0]`. -/
def splitArg0 (s : String) : String :=
  ⟨splitFirst s.data⟩

/-- JS `s.split(' - ')[1]`; when the separator does not occur the JS index
yields `undefined`, which a template literal renders as the text
"undefined". -/
def splitArg1 (s : String) : String :=
  match splitRest s.data with
  | some r => ⟨splitFirst r⟩
  | none => "undefined"

/-- Decimal digit value. -/
def decDigit? (c : Char) : Option Nat :=
  if '0' ≤ c ∧ c ≤ '9' then some (c.toNat - '0'.toNat) else none

/-- Hexadecimal digit value. -/
def hexDigit? (c : Char) : Option Nat :=
  if '0' ≤ c ∧ c ≤ '9' then some (c.toNat - '0'.toNat)
  else if 'a' ≤ c ∧ c ≤ 'f' then some (c.toNat - 'a'.toNat + 10)
  else if 'A' ≤ c ∧ c ≤ 'F' then some (c.toNat - 'A'.toNat + 10)
  else none

/-- Longest leading run of digits. -/
def leadDigits (dig? : Char → Option Nat) : List Char → List Nat
  | [] => []
  | c :: cs =>
    match dig? c with
    | some d => d :: leadDigits dig? cs
    | none => []

/-- Value of a digit list in the given base. -/
def natOfDigits (base : Nat) (ds : List Nat) : Nat :=
  ds.foldl (fun acc d => acc * base + d) 0

/-- JS `parseInt(s)` with no radix argument: skip leading whitespace, read
an optional sign, recognise a hexadecimal prefix, parse the longest digit
run; `none` models NaN. -/
def jsParseInt (s : String) : Option Int :=
  let l := s.data.dropWhile Char.isWhitespace
  let signAndRest : Int × List Char :=
    match l with
    | '-' :: r => (-1, r)
    | '+' :: r => (1, r)
    | _ => (1, l)
  let sign := signAndRest.1
  let baseAndRest : Nat × List Char :=
    match signAndRest.2 with
    | '0' :: 'x' :: r => (16, r)
    | '0' :: 'X' :: r => (16, r)
    | r => (10, r)
  let dig? := if baseAndRest.1 = 16 then hexDigit? else decDigit?
  let ds := leadDigits dig? baseAndRest.2
  if ds.isEmpty then none
  else some (sign * (natOfDigits baseAndRest.1 ds : Nat))

/-- Numeric sort key of a division key:
`parseInt(key.split(' - ')[0])`. -/
def divisionKeyNum (k : String) : Option Int :=
  jsParseInt (splitArg0 k)

/-- The division comparator `(a, b) => parseInt(...) - parseInt(...)`; a NaN
result is treated as +0 by the ECMAScript SortCompare operation, hence the
`none` cases collapse to 0. -/
def cmpDivision (a b : String) : Int :=
  match divisionKeyNum a, divisionKeyNum b with
  | some x, some y => x - y
  | _, _ => 0

/-- The tier comparator `(a, b) => a.tier - b.tier`. -/
def cmpTier (a b : Material) : Int :=
  a.tier.toInt - b.tier.toInt

/-- Insert `x` into an already sorted list, after every element that does
not compare strictly greater than `x`; this is where a stable sort places
an element arriving later in the input. -/
def insertStable (c : α → α → Int) (x : α) : List α → List α
  | [] => [x]
  | y :: ys => if c y x > 0 then x :: y :: ys else y :: insertStable c x ys

/-- Stable sort by a JS comparator, modelling the ES2019+ requirement that
`Array.prototype.sort` is stable. -/
def sortStable (c : α → α → Int) (l : List α) : List α :=
  l.foldl (fun acc x => insertStable c x acc) []

/-! ## Grouping and ordering engine
Transcribed from the grouping section of `generateMarkdownReport`. -/

/-- The division key of a material:
the template literal of csiNumber, a separator, and csiDivision. -/
def materialKey (m : Material) : String :=
  m.csiNumber ++ " - " ++ m.csiDivision

/-- The keys of `groupedByDivision` in JS object insertion order; every key
contains the separator and is therefore not an array index, so object key
enumeration is first-insertion order. -/
def divisionKeysInOrder (ms : List Material) : List String :=
  insertionDedup (ms.map materialKey)

/-- `divisionKeys`: the object keys sorted by the numeric division
comparator. -/
def sortedDivisionKeys (ms : List Material) : List String :=
  sortStable cmpDivision (divisionKeysInOrder ms)

/-- `groupedByDivision[key]`: the materials pushed under a key, in input
order. -/
def divisionBucket (ms : List Material) (k : String) : List Material :=
  ms.filter (fun m => materialKey m == k)

/-- The in-place tier sort `groupedByDivision[key].sort((a, b) => a.tier - b.tier)`. -/
def tierSortedBucket (ms : List Material) (k : String) : List Material :=
  sortStable cmpTier (divisionBucket ms k)

/-- `xs.filter((m) => m.tier === t)`. -/
def divTier (t : Tier) (l : List Material) : List Material :=
  l.filter (fun m => m.tier == t)

/-- The materials of one division in rendered order: the tier-sorted bucket
filtered into the tier-1, tier-2 and tier-3 sub-blocks, concatenated. -/
def orderedDivisionMaterials (ms : List Material) (k : String) : List Material :=
  let s := tierSortedBucket ms k
  divTier .t1 s ++ divTier .t2 s ++ divTier .t3 s

/-- The materials of the markdown materials-analysis body in rendered
order: divisions ascending, tier sub-blocks within each division. -/
def mdBodyMaterials (ms : List Material) : List Material :=
  (sortedDivisionKeys ms).flatMap (orderedDivisionMaterials ms)

/-- The ordered (division, tier, material-name) triples of the markdown
materials-analysis body; the division component is the division key under
whose heading the material section is emitted. -/
def mdTriples (ms : List Material) : List (String × Tier × String) :=
  (sortedDivisionKeys ms).flatMap
    (fun k => (orderedDivisionMaterials ms k).map (fun m => (k, m.tier, m.name)))

/-- The materials of the paginated body in rendered order: `buildPDFDocument`
emits all tier-1 material cards, then all tier-2 cards, then all tier-3
cards, each group in input order. -/
def pdfBodyMaterials (ms : List Material) : List Material :=
  divTier .t1 ms ++ divTier .t2 ms ++ divTier .t3 ms

/-- The ordered (division, tier, material-name) triples of the paginated
body; each card shows the division as csiNumber, separator, csiDivision. -/
def pdfTriples (ms : List Material) : List (String × Tier × String) :=
  (pdfBodyMaterials ms).map (fun m => (materialKey m, m.tier, m.name))

/-- Triples of the markdown rendering of an analysis. -/
def mdReportTriples (a : Analysis) : List (String × Tier × String) :=
  mdTriples a.materials

/-- Triples of the paginated rendering of an analysis. -/
def pdfReportTriples (a : Analysis) : List (String × Tier × String) :=
  pdfTriples a.materials

/-! ## Derived-entity generator -/

/-- The `divisionToSpecialty` taxonomy table of `getConsultantsForDivisions`. -/
def divisionToSpecialty (d : String) : Option (List String) :=
  if d = "Concrete" then some ["Structural Engineering", "Concrete Technology", "Materials Science"]
  else if d = "Masonry" then some ["Masonry Engineering", "Structural Engineering", "Historic Preservation"]
  else if d = "Metals" then some ["Structural Engineering", "Metallurgy", "Fabrication Engineering"]
  else if d = "Wood, Plastics, and Composites" then some ["Structural Engineering", "Wood Technology", "Composite Materials"]
  else if d = "Thermal and Moisture Protection" then some ["Building Envelope", "Moisture Control", "Energy Efficiency"]
  else if d = "Openings" then some ["Fenestration Engineering", "Building Envelope", "Daylighting Design"]
  else if d = "Finishes" then some ["Interior Design", "Acoustics", "Fire Safety Engineering"]
  else if d = "Specialties" then some ["Specialty Engineering", "Custom Fabrication", "Product Development"]
  else if d = "Special Construction" then some ["Specialty Engineering", "Innovation Consulting", "R&D"]
  else if d = "Fire Suppression" then some ["Fire Protection Engineering", "Life Safety", "Code Compliance"]
  else if d = "Plumbing" then some ["Plumbing Engineering", "Mechanical Engineering", "Water Systems"]
  else if d = "HVAC" then some ["Mechanical Engineering", "Energy Efficiency", "Indoor Air Quality"]
  else if d = "Electrical" then some ["Electrical Engineering", "Lighting Design", "Power Systems"]
  else if d = "Exterior Improvements" then some ["Landscape Architecture", "Site Engineering", "Hardscape Design"]
  else none

/-- The deduplicated, insertion-ordered specialty set collected from the
input divisions; an unmapped division contributes "General Consulting". -/
def specialtiesFor (divisions : List String) : List String :=
  insertionDedup (divisions.flatMap
    (fun d => (divisionToSpecialty d).getD ["General Consulting"]))

/-- `getConsultantsForDivisions`, transcribed per tier branch; pool indexing
uses the source's modulus into the fixed name pools. -/
def getConsultantsForDivisions (divisions : List String) (tier : Tier) : List Consultant :=
  let specialtyArray := specialtiesFor divisions
  match tier with
  | .t1 =>
    (specialtyArray.take 3).enum.map (fun p =>
      let index := p.1
      let specialty := p.2
      { name := "Dr. " ++ (["Sarah", "Michael", "Jennifer"].getD (index % 3) "")
          ++ " " ++ (["Chen", "Rodriguez", "Thompson"].getD (index % 3) "")
        firm := specialty ++ " Associates"
        specialty := specialty
        email := "contact@" ++ condense specialty ++ "associates.com"
        phone := "+1 (555) " ++ toString (200 + index) ++ "0-" ++ toString (1000 + index) ++ "00"
        website := some ("www." ++ condense specialty ++ "associates.com")
        disciplines := [specialty] })
  | .t2 =>
    (specialtyArray.take 4).enum.map (fun p =>
      let index := p.1
      let specialty := p.2
      { name := (["James", "Patricia", "Robert", "Linda"].getD (index % 4) "")
          ++ " " ++ (["Anderson", "Martinez", "Wilson", "Garcia"].getD (index % 4) "")
        firm := specialty ++ " Custom Solutions"
        specialty := specialty ++ " & Custom Fabrication"
        email := "info@" ++ condense specialty ++ "custom.com"
        phone := "+1 (555) " ++ toString (300 + index) ++ "0-" ++ toString (2000 + index) ++ "00"
        website := some ("www." ++ condense specialty ++ "custom.com")
        disciplines := [specialty, "Custom Fabrication"] })
  | .t3 =>
    (specialtyArray.take 5).enum.map (fun p =>
      let index := p.1
      let specialty := p.2
      { name := "Prof. " ++ (["David", "Elizabeth", "Christopher", "Maria", "Daniel"].getD (index % 5) "")
          ++ " " ++ (["Lee", "Brown", "Davis", "Miller", "Taylor"].getD (index % 5) "")
        firm := specialty ++ " Innovation Lab"
        specialty := specialty ++ " R&D & Advanced Materials"
        email := "research@" ++ condense specialty ++ "innovation.com"
        phone := "+1 (555) " ++ toString (400 + index) ++ "0-" ++ toString (3000 + index) ++ "00"
        website := some ("www." ++ condense specialty ++ "innovation.com")
        disciplines := [specialty, "Materials R&D", "Innovation Consulting"] })

/-- The `divisionToSupplierType` taxonomy table of `getSuppliersForMaterials`. -/
def divisionToSupplierType (d : String) : Option (List String) :=
  if d = "Concrete" then some ["Ready-Mix Concrete", "Precast Concrete", "Concrete Products"]
  else if d = "Masonry" then some ["Brick & Block", "Stone Suppliers", "Masonry Products"]
  else if d = "Metals" then some ["Steel Fabricators", "Metal Suppliers", "Architectural Metals"]
  else if d = "Wood, Plastics, and Composites" then some ["Lumber Suppliers", "Composite Materials", "Engineered Wood"]
  else if d = "Thermal and Moisture Protection" then some ["Roofing Materials", "Insulation", "Waterproofing"]
  else if d = "Openings" then some ["Windows & Doors", "Glazing Systems", "Hardware"]
  else if d = "Finishes" then some ["Flooring", "Wall Finishes", "Ceiling Systems"]
  else if d = "Specialties" then some ["Custom Fabrication", "Specialty Products", "Architectural Elements"]
  else none

/-- The region label parsed from the location: the first comma segment of
the jurisdiction, trimmed, falling back to "Local Area" when the
jurisdiction is absent, empty, or trims to the empty string. -/
def regionOf (location : ProjectLocation) : String :=
  match location.jurisdiction with
  | some j =>
    if j = "" then "Local Area"
    else
      let seg := String.mk (j.data.takeWhile (fun c => !(c = ',')))
      let r := seg.trim
      if r = "" then "Local Area" else r
  | none => "Local Area"

/-- The tier argument of `getSuppliersForMaterials` has TS type 1 | 2. -/
inductive SupTier where
  | one
  | two
deriving DecidableEq, Repr

/-- The local-supplier loop of `getSuppliersForMaterials`: one local
supplier per supplier category (first two categories of each distinct
division). -/
def localSuppliersFor (materials : List Material) (location : ProjectLocation) :
    List Supplier :=
  let materialTypes := insertionDedup (materials.map (·.csiDivision))
  let region := regionOf location
  materialTypes.enum.flatMap (fun (p : Nat × String) =>
    let index := p.1
    let division := p.2
    let supplierTypes := (divisionToSupplierType division).getD ["General Building Materials"]
    (supplierTypes.take 2).enum.map (fun (q : Nat × String) =>
      let typeIndex := q.1
      let supplierType := q.2
      ({ name := (["John", "Sarah", "Michael", "Emily"].getD ((index + typeIndex) % 4) "")
          ++ " " ++ (["Smith", "Johnson", "Williams", "Brown"].getD ((index + typeIndex) % 4) ""),
         company := region ++ " " ++ supplierType,
         location := region,
         materialTypes := [division],
         email := "sales@" ++ condense supplierType ++ condense region ++ ".com",
         phone := "+1 (" ++ toString (555 + index) ++ ") " ++ toString (200 + typeIndex)
          ++ "0-" ++ toString (1000 + index) ++ "00",
         website := some ("www." ++ condense supplierType ++ condense region ++ ".com"),
         rating := Rating.local',
         specialties := [supplierType, division] } : Supplier)))

/-- The national-supplier block of `getSuppliersForMaterials`: up to three
national suppliers, produced exactly when tier is 2 or more than three
distinct divisions are present. -/
def nationalSuppliersFor (materials : List Material) (tier : SupTier) :
    List Supplier :=
  let materialTypes := insertionDedup (materials.map (·.csiDivision))
  if tier = SupTier.two ∨ materialTypes.length > 3 then
    (materialTypes.take 3).enum.map (fun (p : Nat × String) =>
        let index := p.1
        let division := p.2
        let supplierTypes := (divisionToSupplierType division).getD ["General Building Materials"]
        let st0 := supplierTypes.getD 0 ""
        ({ name := (["David", "Jennifer", "Robert"].getD (index % 3) "")
            ++ " " ++ (["Anderson", "Martinez", "Taylor"].getD (index % 3) ""),
           company := "National " ++ st0 ++ " Solutions",
           location := "National Distribution",
           materialTypes := [division],
           email := "info@national" ++ condense st0 ++ ".com",
           phone := "+1 (800) " ++ toString (555 + index) ++ "00-" ++ toString (1000 + index) ++ "00",
           website := some ("www.national" ++ condense st0 ++ ".com"),
           rating := Rating.national',
           specialties := [st0, "Premium Products", "Custom Solutions"] } : Supplier))
  else []

/-- `getSuppliersForMaterials`: the local suppliers followed by the
conditional national suppliers. -/
def getSuppliersForMaterials (materials : List Material) (location : ProjectLocation)
    (tier : SupTier) : List Supplier :=
  localSuppliersFor materials location ++ nationalSuppliersFor materials tier

/-! ## Markdown renderer (full string transcription) -/

/-- `generateConsultantEntry`. -/
def generateConsultantEntry (c : Consultant) : String :=
  "#### " ++ c.name ++ "\n"
  ++ "- **Firm:** " ++ c.firm ++ "\n"
  ++ "- **Specialty:** " ++ c.specialty ++ "\n"
  ++ "- **Email:** " ++ c.email ++ "\n"
  ++ "- **Phone:** " ++ c.phone ++ "\n"
  ++ (if jsTruthy c.website then "- **Website:** " ++ c.website.getD "" ++ "\n" else "")
  ++ "- **Disciplines:** " ++ String.intercalate ", " c.disciplines ++ "\n"
  ++ "\n"

/-- `generateSupplierEntry`. -/
def generateSupplierEntry (s : Supplier) : String :=
  "#### " ++ s.name ++ "\n"
  ++ "- **Company:** " ++ s.company ++ "\n"
  ++ "- **Location:** " ++ s.location ++ " "
  ++ (if s.rating = Rating.local' then "(Local)" else "(National)") ++ "\n"
  ++ "- **Material Types:** " ++ String.intercalate ", " s.materialTypes ++ "\n"
  ++ "- **Specialties:** " ++ String.intercalate ", " s.specialties ++ "\n"
  ++ "- **Email:** " ++ s.email ++ "\n"
  ++ "- **Phone:** " ++ s.phone ++ "\n"
  ++ (if jsTruthy s.website then "- **Website:** " ++ s.website.getD "" ++ "\n" else "")
  ++ "\n"

/-- `generateMaterialSection`: the fixed field list of one material, with
the conditionally included sustainability, code-compliance and
alternatives entries.  String lengths are measured in Lean code points
rather than UTF-16 units; the claims do not distinguish these. -/
def generateMaterialSection (m : Material) (incS incA incC : Bool) : String :=
  "##### " ++ m.name ++ "\n"
  ++ "- **CSI Division:** " ++ m.csiNumber ++ " - " ++ m.csiDivision ++ "\n"
  ++ "- **Description:** " ++ m.description ++ "\n"
  ++ "- **Properties:**\n"
  ++ String.join (m.properties.map (fun prop => "  - " ++ prop ++ "\n"))
  ++ "- **Feasibility Notes:** " ++ m.reasoning ++ "\n"
  ++ (if incS && jsTruthy m.sustainabilityNotes then
        "- **Sustainability Notes:** " ++ m.sustainabilityNotes.getD "" ++ "\n" else "")
  ++ (if incC && jsTruthy m.codeCompliance then
        "- **Code Compliance:** " ++ m.codeCompliance.getD "" ++ "\n" else "")
  ++ (match m.alternatives with
      | some alts =>
        if incA && !alts.isEmpty then
          "- **Alternative Materials:**\n"
          ++ String.join (alts.enum.map (fun (p : Nat × Alternative) =>
              "  " ++ toString (p.1 + 1) ++ ". **" ++ p.2.name ++ "**\n"
              ++ "     - Description: " ++ p.2.description ++ "\n"
              ++ "     - Tradeoffs: " ++ p.2.tradeoffs ++ "\n"))
        else ""
      | none => "")
  ++ "\n"

/-- One division subsection of the markdown body: the duplicated-key
heading and the non-empty tier sub-blocks of the tier-sorted bucket. -/
def divisionSection (ms : List Material) (incS incA incC : Bool) (k : String) : String :=
  let divisionMaterials := tierSortedBucket ms k
  let csiNumber := splitArg0 k
  let csiName := splitArg1 k
  let divT1 := divTier .t1 divisionMaterials
  let divT2 := divTier .t2 divisionMaterials
  let divT3 := divTier .t3 divisionMaterials
  "### Division " ++ csiNumber ++ " - " ++ csiName.toUpper ++ "\n\n"
  ++ (if !divT1.isEmpty then
        "#### Tier 1: Readily Available\n\n"
        ++ String.join (divT1.map (fun m => generateMaterialSection m incS incA incC))
      else "")
  ++ (if !divT2.isEmpty then
        "#### Tier 2: Requires Customization\n\n"
        ++ String.join (divT2.map (fun m => generateMaterialSection m incS incA incC))
      else "")
  ++ (if !divT3.isEmpty then
        "#### Tier 3: Custom Development Required\n\n"
        ++ String.join (divT3.map (fun m => generateMaterialSection m incS incA incC))
      else "")
  ++ "\n"

/-- One per-tier block of the Summary by Tier roll-up: material names
grouped under division keys in first-occurrence order. -/
def tierRollupBlock (heading : String) (tierMs : List Material) : String :=
  heading
  ++ String.join ((insertionDedup (tierMs.map materialKey)).map (fun k =>
      "- " ++ k ++ ": "
      ++ String.intercalate ", " ((tierMs.filter (fun m => materialKey m == k)).map Material.name)
      ++ "\n"))
  ++ "\n"

/-- `generateMarkdownReport`, transcribed block by block; the `fmt`
parameter models the environment's `new Date(t).toLocaleString()`. -/
def generateMarkdownReport (fmt : String → String) (a : Analysis) : String :=
  let materials := a.materials
  let tier1 := divTier .t1 materials
  let tier2 := divTier .t2 materials
  let tier3 := divTier .t3 materials
  let rTitle :=
    "# Material Feasibility Analysis Report\n\n"
    ++ "**Generated:** " ++ fmt a.timestamp ++ "\n"
    ++ (if a.imageUrls.length > 1 then
          "**Images Analyzed:** " ++ toString a.imageUrls.length ++ "\n" else "")
    ++ "\n"
  let rBrief :=
    match a.brief with
    | some brief =>
      "## Project Brief\n\n"
      ++ (if jsTruthy brief.intent then
            "**Project Intent & Constraints:**\n" ++ brief.intent.getD "" ++ "\n\n" else "")
      ++ (if !(brief.text == "") && brief.text.length < 500 then
            "**Brief Summary:**\n" ++ brief.text ++ "\n\n" else "")
      ++ "---\n\n"
    | none => ""
  let rLoc :=
    match a.location with
    | some location =>
      "**Project Location:** " ++ location.input ++ "\n"
      ++ (if jsTruthy location.jurisdiction then
            "**Jurisdiction:** " ++ location.jurisdiction.getD "" ++ "\n" else "")
      ++ (if jsTruthy location.buildingCode then
            "**Building Code:** " ++ location.buildingCode.getD "" ++ "\n" else "")
      ++ "\n"
    | none => ""
  let rSummary :=
    "## Project Summary\n\n"
    ++ "- **Total materials identified:** " ++ toString materials.length ++ "\n"
    ++ "- **Tier 1 (Readily Available):** " ++ toString tier1.length ++ " materials\n"
    ++ "- **Tier 2 (Requires Customization):** " ++ toString tier2.length ++ " materials\n"
    ++ "- **Tier 3 (Custom Development):** " ++ toString tier3.length ++ " materials\n\n"
    ++ "---\n\n"
    ++ "## Materials Analysis by CSI MasterFormat Division\n\n"
  let rBody :=
    String.join ((sortedDivisionKeys materials).map
      (divisionSection materials a.includeSustainability a.includeAlternatives a.location.isSome))
  let rRollup :=
    "---\n\n"
    ++ "## Summary by Tier\n\n"
    ++ (if !tier1.isEmpty then
          tierRollupBlock ("### Tier 1: Readily Available (" ++ toString tier1.length ++ " materials)\n") tier1
        else "")
    ++ (if !tier2.isEmpty then
          tierRollupBlock ("### Tier 2: Requires Customization (" ++ toString tier2.length ++ " materials)\n") tier2
        else "")
    ++ (if !tier3.isEmpty then
          tierRollupBlock ("### Tier 3: Custom Development (" ++ toString tier3.length ++ " materials)\n") tier3
        else "")
  let rCompliance :=
    match a.location with
    | some location =>
      "---\n\n"
      ++ "## Building Code Compliance Summary\n\n"
      ++ "**Project Location:** " ++ location.input ++ "\n"
      ++ (if jsTruthy location.jurisdiction then
            "**Jurisdiction:** " ++ location.jurisdiction.getD "" ++ "\n" else "")
      ++ (if jsTruthy location.buildingCode then
            "**Applicable Codes:** " ++ location.buildingCode.getD "" ++ "\n" else "")
      ++ "\n"
      ++ "### Code Compliance by Material\n\n"
      ++ "Materials are subject to local building codes and may require:\n"
      ++ "- Product approvals (ICC-ES reports, FM approvals, UL listings)\n"
      ++ "- Fire testing and ratings per ASTM standards\n"
      ++ "- Structural engineering stamps and calculations\n"
      ++ "- Special inspection requirements\n"
      ++ "- Local amendments and jurisdictional variations\n\n"
      ++ "**Important:** Review all materials with local building officials and code consultants before specifying. Code requirements vary by jurisdiction and project type.\n\n"
    | none => ""
  let rRecs :=
    "---\n\n"
    ++ "## Recommendations\n\n"
    ++ "**Next Steps:**\n"
    ++ "- Tier 1 materials can proceed to specification immediately\n"
    ++ "- Tier 2 materials require consultation with manufacturers/fabricators\n"
    ++ "- Tier 3 materials need R&D phase or alternative solutions\n"
    ++ (if a.location.isSome then
          "- Submit materials list to local building department for preliminary review\n"
          ++ "- Engage code consultant for jurisdiction-specific requirements\n"
        else "")
    ++ "\n"
    ++ (if a.includeAlternatives then
          "**Alternative Materials:**\n"
          ++ "Consider the suggested alternatives for cost, schedule, or performance optimization.\n\n"
        else "")
  let rConsult :=
    "---\n\n"
    ++ "## Appendix: Elite Consultants by Tier\n\n"
    ++ "The following consultants are recommended for the disciplines governing the identified materials in this analysis.\n\n"
    ++ (if !tier1.isEmpty then
          "### Green Consultants (Tier 1 Materials)\n\n"
          ++ String.join ((getConsultantsForDivisions
                (insertionDedup (tier1.map (·.csiDivision))) .t1).map generateConsultantEntry)
          ++ "\n"
        else "")
    ++ (if !tier2.isEmpty then
          "### Yellow Consultants (Tier 2 Materials)\n\n"
          ++ String.join ((getConsultantsForDivisions
                (insertionDedup (tier2.map (·.csiDivision))) .t2).map generateConsultantEntry)
          ++ "\n"
        else "")
    ++ (if !tier3.isEmpty then
          "### Red Consultants (Tier 3 Materials)\n\n"
          ++ String.join ((getConsultantsForDivisions
                (insertionDedup (tier3.map (·.csiDivision))) .t3).map generateConsultantEntry)
          ++ "\n"
        else "")
  let rSuppliers :=
    match a.location with
    | some location =>
      if !tier1.isEmpty || !tier2.isEmpty then
        "---\n\n"
        ++ "## Appendix: Material Suppliers by Tier\n\n"
        ++ "The following suppliers are recommended for Tier 1 and Tier 2 materials. Suppliers are prioritized by proximity to the project location, with national suppliers listed when local options are limited.\n\n"
        ++ (if !tier1.isEmpty then
              let greenSuppliers := getSuppliersForMaterials tier1 location .one
              "### Green Suppliers (Tier 1 Materials)\n\n"
              ++ (if !greenSuppliers.isEmpty then
                    String.join (greenSuppliers.map generateSupplierEntry)
                  else "*No local suppliers found. Consider national suppliers listed below.\n\n")
              ++ "\n"
            else "")
        ++ (if !tier2.isEmpty then
              let yellowSuppliers := getSuppliersForMaterials tier2 location .two
              "### Yellow Suppliers (Tier 2 Materials)\n\n"
              ++ (if !yellowSuppliers.isEmpty then
                    String.join (yellowSuppliers.map generateSupplierEntry)
                  else "*No local suppliers found. Consider national suppliers listed below.\n\n")
              ++ "\n"
            else "")
        ++ (let allSuppliers :=
              (if !tier1.isEmpty then getSuppliersForMaterials tier1 location .one else [])
              ++ (if !tier2.isEmpty then getSuppliersForMaterials tier2 location .two else [])
            let nationalSuppliers := allSuppliers.filter (fun s => s.rating == Rating.national')
            if !nationalSuppliers.isEmpty then
              "### National Suppliers (High-Quality Options)\n\n"
              ++ "The following national suppliers offer high-quality products and may provide better options when local suppliers are limited:\n\n"
              ++ String.join (nationalSuppliers.map generateSupplierEntry)
              ++ "\n"
            else "")
      else ""
    | none => ""
  rTitle ++ rBrief ++ rLoc ++ rSummary ++ rBody ++ rRollup ++ rCompliance ++ rRecs
    ++ rConsult ++ rSuppliers ++ "**Report generated by SpecMate**\n"

/-! ## Structural projections of both renderers
These mirror the conditional top-level structure of `generateMarkdownReport`
and `buildPDFDocument` as ordered lists of section tags, and the per-material
field lists of `generateMaterialSection` and `addMaterialCard`. -/

/-- Top-level sections of either renderer. -/
inductive SectionTag where
  | title
  | imageBlock
  | briefNotes
  | locationHeader
  | dateOfReport
  | projectSummary
  | materialsBody
  | tier1Cards
  | tier2Cards
  | tier3Cards
  | tierRollup
  | complianceSummary
  | recommendations
  | consultantsHeader
  | greenConsultants
  | yellowConsultants
  | redConsultants
  | suppliersAppendix
  | greenSuppliers
  | yellowSuppliers
  | nationalSuppliers
  | attribution
  | footer
deriving DecidableEq, Repr

/-- The ordered top-level sections of the markdown output, one tag per
conditionally emitted block of `generateMarkdownReport`. -/
def mdSectionTags (a : Analysis) : List SectionTag :=
  let tier1 := divTier .t1 a.materials
  let tier2 := divTier .t2 a.materials
  let tier3 := divTier .t3 a.materials
  [SectionTag.title]
  ++ (match a.brief with | some _ => [SectionTag.briefNotes] | none => [])
  ++ (match a.location with | some _ => [SectionTag.locationHeader] | none => [])
  ++ [SectionTag.projectSummary, SectionTag.materialsBody, SectionTag.tierRollup]
  ++ (match a.location with | some _ => [SectionTag.complianceSummary] | none => [])
  ++ [SectionTag.recommendations, SectionTag.consultantsHeader]
  ++ (if tier1.isEmpty then [] else [SectionTag.greenConsultants])
  ++ (if tier2.isEmpty then [] else [SectionTag.yellowConsultants])
  ++ (if tier3.isEmpty then [] else [SectionTag.redConsultants])
  ++ (match a.location with
      | some location =>
        if !tier1.isEmpty || !tier2.isEmpty then
          [SectionTag.suppliersAppendix]
          ++ (if tier1.isEmpty then [] else [SectionTag.greenSuppliers])
          ++ (if tier2.isEmpty then [] else [SectionTag.yellowSuppliers])
          ++ (let allSuppliers :=
                (if !tier1.isEmpty then getSuppliersForMaterials tier1 location .one else [])
                ++ (if !tier2.isEmpty then getSuppliersForMaterials tier2 location .two else [])
              if (allSuppliers.filter (fun s => s.rating == Rating.national')).isEmpty then []
              else [SectionTag.nationalSuppliers])
        else []
      | none => [])
  ++ [SectionTag.attribution]

/-- The ordered top-level sections of the paginated output, one tag per
conditionally emitted block of `buildPDFDocument`: title, optional image,
optional location header, date, brief notes, summary, the three tier card
groups, the consultant appendix, the conditional supplier appendix, and
the page footer pass.  `buildPDFDocument` contains no building-code
compliance summary block and no recommendations block. -/
def pdfSectionTags (a : Analysis) : List SectionTag :=
  let tier1 := divTier .t1 a.materials
  let tier2 := divTier .t2 a.materials
  let tier3 := divTier .t3 a.materials
  [SectionTag.title]
  ++ (if a.imageUrls.isEmpty then [] else [SectionTag.imageBlock])
  ++ (match a.location with | some _ => [SectionTag.locationHeader] | none => [])
  ++ [SectionTag.dateOfReport, SectionTag.briefNotes, SectionTag.projectSummary]
  ++ (if tier1.isEmpty then [] else [SectionTag.tier1Cards])
  ++ (if tier2.isEmpty then [] else [SectionTag.tier2Cards])
  ++ (if tier3.isEmpty then [] else [SectionTag.tier3Cards])
  ++ [SectionTag.consultantsHeader]
  ++ (if tier1.isEmpty then [] else [SectionTag.greenConsultants])
  ++ (if tier2.isEmpty then [] else [SectionTag.yellowConsultants])
  ++ (if tier3.isEmpty then [] else [SectionTag.redConsultants])
  ++ (match a.location with
      | some location =>
        if !tier1.isEmpty || !tier2.isEmpty then
          [SectionTag.suppliersAppendix]
          ++ (if tier1.isEmpty then [] else [SectionTag.greenSuppliers])
          ++ (if tier2.isEmpty then [] else [SectionTag.yellowSuppliers])
          ++ (let allSuppliers :=
                (if !tier1.isEmpty then getSuppliersForMaterials tier1 location .one else [])
                ++ (if !tier2.isEmpty then getSuppliersForMaterials tier2 location .two else [])
              if (allSuppliers.filter (fun s => s.rating == Rating.national')).isEmpty then []
              else [SectionTag.nationalSuppliers])
        else []
      | none => [])
  ++ [SectionTag.footer]

/-- The fields of one rendered material, in emission order. -/
inductive MatBlock where
  | name (s : String)
  | csiRef (s : String)
  | description (s : String)
  | properties (ps : List String)
  | feasibility (s : String)
  | sustainability (s : String)
  | codeCompliance (s : String)
  | alternatives (alts : List Alternative)
deriving DecidableEq, Repr

/-- Field list of one markdown material section
(`generateMaterialSection`). -/
def generateMaterialSectionBlocks (m : Material) (incS incA incC : Bool) : List MatBlock :=
  [MatBlock.name m.name,
   MatBlock.csiRef (m.csiNumber ++ " - " ++ m.csiDivision),
   MatBlock.description m.description,
   MatBlock.properties m.properties,
   MatBlock.feasibility m.reasoning]
  ++ (if incS && jsTruthy m.sustainabilityNotes then
        [MatBlock.sustainability (m.sustainabilityNotes.getD "")] else [])
  ++ (if incC && jsTruthy m.codeCompliance then
        [MatBlock.codeCompliance (m.codeCompliance.getD "")] else [])
  ++ (match m.alternatives with
      | some alts => if incA && !alts.isEmpty then [MatBlock.alternatives alts] else []
      | none => [])

/-- Field list of one paginated material card (`addMaterialCard`); the
code-compliance field is gated on the presence of a location. -/
def addMaterialCardBlocks (m : Material) (incS incA locPresent : Bool) : List MatBlock :=
  [MatBlock.name m.name,
   MatBlock.csiRef (m.csiNumber ++ " - " ++ m.csiDivision),
   MatBlock.description m.description,
   MatBlock.properties m.properties,
   MatBlock.feasibility m.reasoning]
  ++ (if incS && jsTruthy m.sustainabilityNotes then
        [MatBlock.sustainability (m.sustainabilityNotes.getD "")] else [])
  ++ (if locPresent && jsTruthy m.codeCompliance then
        [MatBlock.codeCompliance (m.codeCompliance.getD "")] else [])
  ++ (match m.alternatives with
      | some alts => if incA && !alts.isEmpty then [MatBlock.alternatives alts] else []
      | none => [])

/-- All material sections of the markdown output, in rendered order. -/
def mdMaterialSectionsBlocks (a : Analysis) : List (List MatBlock) :=
  (mdBodyMaterials a.materials).map
    (fun m => generateMaterialSectionBlocks m a.includeSustainability a.includeAlternatives
      a.location.isSome)

/-- All material cards of the paginated output, in rendered order. -/
def pdfMaterialCardsBlocks (a : Analysis) : List (List MatBlock) :=
  (pdfBodyMaterials a.materials).map
    (fun m => addMaterialCardBlocks m a.includeSustainability a.includeAlternatives
      a.location.isSome)

/-- The conditionally emitted pieces of the markdown Project Brief
section. -/
inductive BriefPiece where
  | intentBlock (s : String)
  | summaryBlock (s : String)
deriving DecidableEq, Repr

/-- The pieces of the Project Brief section: the intent block under a JS
truthiness check, then, independently, the raw-text block when the text is
truthy and shorter than 500 characters. -/
def briefPieces (b : ProjectBrief) : List BriefPiece :=
  (if jsTruthy b.intent then [BriefPiece.intentBlock (b.intent.getD "")] else [])
  ++ (if !(b.text == "") && b.text.length < 500 then [BriefPiece.summaryBlock b.text] else [])

/-- The brief pieces of the markdown rendering of an analysis. -/
def mdBriefPieces (a : Analysis) : List BriefPiece :=
  match a.brief with
  | some b => briefPieces b
  | none => []

/-! ## Concrete sample inputs for counterexamples and witnesses -/

/-- A sample project location with a jurisdiction and building code. -/
def locBoston : ProjectLocation :=
  { input := "Boston, MA"
    coordinates := { lat := 42.36, lng := -71.06 }
    jurisdiction := some "Boston, MA, USA"
    buildingCode := some "IBC 2021" }

/-- Tier-2 material in division 03. -/
def matConcreteT2 : Material :=
  { name := "Precast Concrete Panel"
    description := "A precast panel."
    properties := ["Durable"]
    tier := .t2
    reasoning := "Standard fabrication."
    csiDivision := "Concrete"
    csiNumber := "03" }

/-- Tier-1 material in division 07. -/
def matRoofT1 : Material :=
  { name := "Standing Seam Metal Roof"
    description := "A metal roof."
    properties := ["Weather resistant"]
    tier := .t1
    reasoning := "Readily available."
    csiDivision := "Thermal and Moisture Protection"
    csiNumber := "07" }

/-- A second tier-2 material in division 07, same division name as
`matRoofT1`. -/
def matMembraneT2 : Material :=
  { name := "EPDM Membrane"
    description := "A roofing membrane."
    properties := ["Flexible"]
    tier := .t2
    reasoning := "Requires detailing."
    csiDivision := "Thermal and Moisture Protection"
    csiNumber := "07" }

/-- A material whose csiNumber is 07 but whose division name differs from
the other 07 material (upstream data is not validated). -/
def matTypo07T2 : Material :=
  { name := "Odd Louver"
    description := "A louver."
    properties := ["Ventilating"]
    tier := .t2
    reasoning := "Requires customization."
    csiDivision := "Openings"
    csiNumber := "07" }

/-- Tier-1 material in division 21. -/
def matFireT1 : Material :=
  { name := "Sprinkler Head"
    description := "A sprinkler."
    properties := ["Listed"]
    tier := .t1
    reasoning := "Off the shelf."
    csiDivision := "Fire Suppression"
    csiNumber := "21" }

/-- Tier-3 material in division 08. -/
def matGlassT3 : Material :=
  { name := "Photochromic Glass Panel"
    description := "Adaptive glass."
    properties := ["Adaptive"]
    tier := .t3
    reasoning := "Needs development."
    csiDivision := "Openings"
    csiNumber := "08" }

/-- A material carrying optional data in every optional field. -/
def matWithExtras : Material :=
  { name := "Glass Curtain Wall"
    description := "A curtain wall."
    properties := ["Transparent"]
    tier := .t1
    reasoning := "Catalogue product."
    csiDivision := "Openings"
    csiNumber := "08"
    sustainabilityNotes := some "Recyclable aluminum frames."
    alternatives := some [{ name := "Window Wall"
                            description := "A window wall system."
                            tradeoffs := "Cheaper, more joints." }]
    codeCompliance := some "Requires NFRC rating." }

/-- Analysis with one tier-2 division-03 material and one tier-1
division-07 material, no location, no brief. -/
def analysisTwoDiv : Analysis :=
  { imageUrls := []
    materials := [matConcreteT2, matRoofT1]
    timestamp := "2025-01-01T00:00:00.000Z"
    includeSustainability := false
    includeAlternatives := false }

/-- Analysis with a location and one tier-1 material. -/
def analysisWithLoc : Analysis :=
  { imageUrls := []
    materials := [matRoofT1]
    timestamp := "2025-01-01T00:00:00.000Z"
    includeSustainability := false
    includeAlternatives := false
    location := some locBoston }

/-- Analysis whose material has alternatives and sustainability data while
both feature flags are off. -/
def analysisFlagsOff : Analysis :=
  { imageUrls := []
    materials := [matWithExtras]
    timestamp := "2025-01-01T00:00:00.000Z"
    includeSustainability := false
    includeAlternatives := false
    location := some locBoston }

/-- A brief with a nonempty extracted intent and a short raw text. -/
def briefBoth : ProjectBrief :=
  { text := "A short brief."
    intent := some "A community library with a timber frame." }

/-- Analysis carrying `briefBoth`. -/
def analysisWithBrief : Analysis :=
  { imageUrls := []
    materials := [matRoofT1]
    timestamp := "2025-01-01T00:00:00.000Z"
    includeSustainability := false
    includeAlternatives := false
    brief := some briefBoth }

/-- Tier-3 material in division 07 (same division name as `matRoofT1`). -/
def matInsulT3 : Material :=
  { name := "Aerogel Insulation Blanket"
    description := "An aerogel blanket."
    properties := ["Insulating"]
    tier := .t3
    reasoning := "Needs development."
    csiDivision := "Thermal and Moisture Protection"
    csiNumber := "07" }

/-- A second tier-1 material in division 07. -/
def matShingleT1 : Material :=
  { name := "Asphalt Shingle"
    description := "A shingle."
    properties := ["Common"]
    tier := .t1
    reasoning := "Readily available."
    csiDivision := "Thermal and Moisture Protection"
    csiNumber := "07" }

/-! ## General lemmas: insertion-order deduplication -/

theorem mem_insertionDedupAux [DecidableEq α] (l : List α) :
    ∀ (seen : List α) (x : α),
      x ∈ insertionDedupAux seen l ↔ x ∈ l ∧ x ∉ seen := by
  induction l with
  | nil => intro seen x; simp [insertionDedupAux]
  | cons a l ih =>
    intro seen x
    rw [insertionDedupAux]
    by_cases h : a ∈ seen
    · rw [if_pos h, ih]
      simp only [List.mem_cons]
      constructor
      · exact fun hp => ⟨Or.inr hp.1, hp.2⟩
      · rintro ⟨rfl | hl, hs⟩
        · exact absurd h hs
        · exact ⟨hl, hs⟩
    · rw [if_neg h]
      simp only [List.mem_cons, ih]
      constructor
      · rintro (rfl | ⟨hl, hs⟩)
        · exact ⟨Or.inl rfl, h⟩
        · exact ⟨Or.inr hl, fun hx => hs (Or.inr hx)⟩
      · rintro ⟨rfl | hl, hs⟩
        · exact Or.inl rfl
        · by_cases hxa : x = a
          · exact Or.inl hxa
          · refine Or.inr ⟨hl, fun hm => ?_⟩
            rcases hm with h1 | h2
            · exact hxa h1
            · exact hs h2

theorem insertionDedup_mem [DecidableEq α] (l : List α) (x : α) :
    x ∈ insertionDedup l ↔ x ∈ l := by
  rw [insertionDedup, mem_insertionDedupAux]
  simp

theorem nodup_insertionDedupAux [DecidableEq α] (l : List α) :
    ∀ seen : List α, (insertionDedupAux seen l).Nodup := by
  induction l with
  | nil => intro seen; simp [insertionDedupAux]
  | cons a l ih =>
    intro seen
    rw [insertionDedupAux]
    by_cases h : a ∈ seen
    · rw [if_pos h]; exact ih seen
    · rw [if_neg h, List.nodup_cons]
      refine ⟨fun hmem => ?_, ih _⟩
      rw [mem_insertionDedupAux] at hmem
      exact hmem.2 (List.mem_cons_self a seen)

theorem insertionDedup_nodup [DecidableEq α] (l : List α) :
    (insertionDedup l).Nodup :=
  nodup_insertionDedupAux l []

/-! ## General lemmas: the stable sort -/

theorem insertStable_perm (c : α → α → Int) (x : α) (l : List α) :
    (insertStable c x l).Perm (x :: l) := by
  induction l with
  | nil => exact List.Perm.refl _
  | cons y ys ih =>
    rw [insertStable]
    by_cases h : c y x > 0
    · rw [if_pos h]
    · rw [if_neg h]
      exact (ih.cons y).trans (List.Perm.swap x y ys)

theorem foldl_insertStable_perm (c : α → α → Int) (l : List α) :
    ∀ acc : List α,
      (l.foldl (fun acc x => insertStable c x acc) acc).Perm (acc ++ l) := by
  induction l with
  | nil => intro acc; simp
  | cons x xs ih =>
    intro acc
    rw [List.foldl_cons]
    refine ((ih (insertStable c x acc)).trans ?_)
    refine (List.Perm.append_right xs (insertStable_perm c x acc)).trans ?_
    exact List.perm_middle.symm

theorem sortStable_perm (c : α → α → Int) (l : List α) :
    (sortStable c l).Perm l := by
  have h := foldl_insertStable_perm c l []
  simpa [sortStable] using h

theorem insertStable_append (c : α → α → Int) (x : α) (A B : List α)
    (h : ∀ y ∈ A, ¬ c y x > 0) :
    insertStable c x (A ++ B) = A ++ insertStable c x B := by
  induction A with
  | nil => rfl
  | cons a A ih =>
    rw [List.cons_append, insertStable, if_neg (h a (List.mem_cons_self a A)),
      ih (fun y hy => h y (List.mem_cons.mpr (Or.inr hy)))]
    rfl

theorem insertStable_all_gt (c : α → α → Int) (x : α) (B : List α)
    (h : ∀ y ∈ B, c y x > 0) :
    insertStable c x B = x :: B := by
  cases B with
  | nil => rfl
  | cons b B => rw [insertStable, if_pos (h b (List.mem_cons_self b B))]

/-! ## General lemmas: tier filters -/

theorem mem_divTier {t : Tier} {l : List Material} {m : Material} :
    m ∈ divTier t l ↔ m ∈ l ∧ m.tier = t := by
  simp [divTier, List.mem_filter]

theorem divTier_partition (l : List Material) :
    (divTier .t1 l ++ divTier .t2 l ++ divTier .t3 l).Perm l := by
  induction l with
  | nil => exact List.Perm.refl _
  | cons m l ih =>
    cases hm : m.tier with
    | t1 =>
      have h1 : divTier .t1 (m :: l) = m :: divTier .t1 l := by
        simp [divTier, List.filter_cons, hm]
      have h2 : divTier .t2 (m :: l) = divTier .t2 l := by
        simp [divTier, List.filter_cons, hm]
      have h3 : divTier .t3 (m :: l) = divTier .t3 l := by
        simp [divTier, List.filter_cons, hm]
      rw [h1, h2, h3]
      exact ih.cons m
    | t2 =>
      have h1 : divTier .t1 (m :: l) = divTier .t1 l := by
        simp [divTier, List.filter_cons, hm]
      have h2 : divTier .t2 (m :: l) = m :: divTier .t2 l := by
        simp [divTier, List.filter_cons, hm]
      have h3 : divTier .t3 (m :: l) = divTier .t3 l := by
        simp [divTier, List.filter_cons, hm]
      rw [h1, h2, h3]
      have e : divTier Tier.t1 l ++ (m :: divTier Tier.t2 l) ++ divTier Tier.t3 l
          = divTier Tier.t1 l ++ (m :: (divTier Tier.t2 l ++ divTier Tier.t3 l)) := by
        simp
      rw [e]
      refine List.perm_middle.trans ?_
      rw [← List.append_assoc]
      exact ih.cons m
    | t3 =>
      have h1 : divTier .t1 (m :: l) = divTier .t1 l := by
        simp [divTier, List.filter_cons, hm]
      have h2 : divTier .t2 (m :: l) = divTier .t2 l := by
        simp [divTier, List.filter_cons, hm]
      have h3 : divTier .t3 (m :: l) = m :: divTier .t3 l := by
        simp [divTier, List.filter_cons, hm]
      rw [h1, h2, h3]
      refine List.perm_middle.trans ?_
      exact ih.cons m

theorem divTier_divTier_self (t : Tier) (l : List Material) :
    divTier t (divTier t l) = divTier t l := by
  apply List.filter_eq_self.mpr
  intro m hm
  have := (mem_divTier.mp hm).2
  simp [this]

theorem divTier_divTier_ne (t t' : Tier) (h : t' ≠ t) (l : List Material) :
    divTier t (divTier t' l) = [] := by
  apply List.filter_eq_nil_iff.mpr
  intro m hm
  have := (mem_divTier.mp hm).2
  simp [this]
  exact h

/-- A stable sort by the tier comparator is exactly the tier-1 elements,
then the tier-2 elements, then the tier-3 elements, each group in input
order. -/
theorem sortStable_cmpTier_eq (l : List Material) :
    sortStable cmpTier l = divTier .t1 l ++ divTier .t2 l ++ divTier .t3 l := by
  induction l using List.reverseRecOn with
  | nil => rfl
  | append_singleton l x ih =>
    have hsort : sortStable cmpTier (l ++ [x])
        = insertStable cmpTier x (sortStable cmpTier l) := by
      rw [sortStable, sortStable, List.foldl_append, List.foldl_cons, List.foldl_nil]
    rw [hsort, ih]
    have hc1 : ∀ y ∈ divTier Tier.t1 l, y.tier = Tier.t1 := fun y hy => (mem_divTier.mp hy).2
    have hc2 : ∀ y ∈ divTier Tier.t2 l, y.tier = Tier.t2 := fun y hy => (mem_divTier.mp hy).2
    have hc3 : ∀ y ∈ divTier Tier.t3 l, y.tier = Tier.t3 := fun y hy => (mem_divTier.mp hy).2
    cases hx : x.tier with
    | t1 =>
      have f1 : divTier .t1 (l ++ [x]) = divTier .t1 l ++ [x] := by
        simp [divTier, List.filter_append, List.filter_cons, hx]
      have f2 : divTier .t2 (l ++ [x]) = divTier .t2 l := by
        simp [divTier, List.filter_append, List.filter_cons, hx]
      have f3 : divTier .t3 (l ++ [x]) = divTier .t3 l := by
        simp [divTier, List.filter_append, List.filter_cons, hx]
      rw [f1, f2, f3, List.append_assoc]
      rw [insertStable_append cmpTier x _ _ (fun y hy => by
        rw [cmpTier, (hc1 y hy), hx]; decide)]
      rw [insertStable_all_gt cmpTier x _ (fun y hy => by
        rcases List.mem_append.mp hy with h2 | h3
        · rw [cmpTier, (hc2 y h2), hx]; decide
        · rw [cmpTier, (hc3 y h3), hx]; decide)]
      simp
    | t2 =>
      have f1 : divTier .t1 (l ++ [x]) = divTier .t1 l := by
        simp [divTier, List.filter_append, List.filter_cons, hx]
      have f2 : divTier .t2 (l ++ [x]) = divTier .t2 l ++ [x] := by
        simp [divTier, List.filter_append, List.filter_cons, hx]
      have f3 : divTier .t3 (l ++ [x]) = divTier .t3 l := by
        simp [divTier, List.filter_append, List.filter_cons, hx]
      rw [f1, f2, f3, List.append_assoc]
      rw [insertStable_append cmpTier x _ _ (fun y hy => by
        rw [cmpTier, (hc1 y hy), hx]; decide)]
      rw [insertStable_append cmpTier x _ _ (fun y hy => by
        rw [cmpTier, (hc2 y hy), hx]; decide)]
      rw [insertStable_all_gt cmpTier x _ (fun y hy => by
        rw [cmpTier, (hc3 y hy), hx]; decide)]
      simp
    | t3 =>
      have f1 : divTier .t1 (l ++ [x]) = divTier .t1 l := by
        simp [divTier, List.filter_append, List.filter_cons, hx]
      have f2 : divTier .t2 (l ++ [x]) = divTier .t2 l := by
        simp [divTier, List.filter_append, List.filter_cons, hx]
      have f3 : divTier .t3 (l ++ [x]) = divTier .t3 l ++ [x] := by
        simp [divTier, List.filter_append, List.filter_cons, hx]
      rw [f1, f2, f3, List.append_assoc]
      rw [insertStable_append cmpTier x _ _ (fun y hy => by
        rw [cmpTier, (hc1 y hy), hx]; decide)]
      rw [insertStable_append cmpTier x _ _ (fun y hy => by
        rw [cmpTier, (hc2 y hy), hx]; decide)]
      have hnil : divTier Tier.t3 l = divTier Tier.t3 l ++ [] := by simp
      rw [hnil, insertStable_append cmpTier x _ _ (fun y hy => by
        rw [cmpTier, (hc3 y hy), hx]; decide)]
      simp [insertStable]

/-- The rendered material order of one division is the bucket's tier-1
elements, then tier-2, then tier-3, each in original input order. -/
theorem orderedDivisionMaterials_eq (ms : List Material) (k : String) :
    orderedDivisionMaterials ms k =
      divTier .t1 (divisionBucket ms k) ++ divTier .t2 (divisionBucket ms k)
        ++ divTier .t3 (divisionBucket ms k) := by
  rw [orderedDivisionMaterials, tierSortedBucket, sortStable_cmpTier_eq]
  have e1 : divTier Tier.t1
      (divTier Tier.t1 (divisionBucket ms k) ++ divTier Tier.t2 (divisionBucket ms k)
        ++ divTier Tier.t3 (divisionBucket ms k)) = divTier Tier.t1 (divisionBucket ms k) := by
    rw [divTier, List.filter_append, List.filter_append]
    rw [← divTier, ← divTier, ← divTier, divTier_divTier_self,
      divTier_divTier_ne _ _ (by decide), divTier_divTier_ne _ _ (by decide)]
    simp
  have e2 : divTier Tier.t2
      (divTier Tier.t1 (divisionBucket ms k) ++ divTier Tier.t2 (divisionBucket ms k)
        ++ divTier Tier.t3 (divisionBucket ms k)) = divTier Tier.t2 (divisionBucket ms k) := by
    rw [divTier, List.filter_append, List.filter_append]
    rw [← divTier, ← divTier, ← divTier, divTier_divTier_self,
      divTier_divTier_ne _ _ (by decide), divTier_divTier_ne _ _ (by decide)]
    simp
  have e3 : divTier Tier.t3
      (divTier Tier.t1 (divisionBucket ms k) ++ divTier Tier.t2 (divisionBucket ms k)
        ++ divTier Tier.t3 (divisionBucket ms k)) = divTier Tier.t3 (divisionBucket ms k) := by
    rw [divTier, List.filter_append, List.filter_append]
    rw [← divTier, ← divTier, ← divTier, divTier_divTier_self,
      divTier_divTier_ne _ _ (by decide), divTier_divTier_ne _ _ (by decide)]
    simp
  rw [e1, e2, e3]

/-! ## General lemmas: grouping is a partition -/

theorem flatMap_congr_mem (l : List α) (f g : α → List β)
    (h : ∀ a ∈ l, f a = g a) : l.flatMap f = l.flatMap g := by
  induction l with
  | nil => rfl
  | cons a l ih =>
    rw [List.flatMap_cons, List.flatMap_cons, h a (List.mem_cons_self a l),
      ih (fun b hb => h b (List.mem_cons.mpr (Or.inr hb)))]

theorem flatMap_perm_congr (K : List κ) (f g : κ → List α)
    (h : ∀ k ∈ K, (f k).Perm (g k)) : (K.flatMap f).Perm (K.flatMap g) := by
  induction K with
  | nil => exact List.Perm.refl _
  | cons k K ih =>
    rw [List.flatMap_cons, List.flatMap_cons]
    exact (h k (List.mem_cons_self k K)).append
      (ih (fun k' hk' => h k' (List.mem_cons.mpr (Or.inr hk'))))

/-- Splitting a list into per-key filter buckets over a duplicate-free key
list covering all its elements is a permutation of the list. -/
theorem flatMap_filter_key_perm [DecidableEq κ] (f : α → κ) :
    ∀ (K : List κ) (l : List α), K.Nodup → (∀ a ∈ l, f a ∈ K) →
      (K.flatMap (fun k => l.filter (fun a => f a == k))).Perm l := by
  intro K
  induction K with
  | nil =>
    intro l _ h
    cases l with
    | nil => exact List.Perm.refl _
    | cons a l => exact absurd (h a (List.mem_cons_self a l)) (List.not_mem_nil _)
  | cons k K ih =>
    intro l hnd hmem
    rw [List.flatMap_cons]
    have hk_not : k ∉ K := (List.nodup_cons.mp hnd).1
    have hfilters : K.flatMap (fun k' => l.filter (fun a => f a == k'))
        = K.flatMap (fun k' =>
            (l.filter (fun a => !(f a == k))).filter (fun a => f a == k')) := by
      apply flatMap_congr_mem
      intro k' hk'
      have hne : k' ≠ k := fun he => hk_not (he ▸ hk')
      rw [List.filter_filter]
      apply List.filter_congr
      intro a _
      by_cases hfa : f a = k'
      · simp [hfa, hne]
      · simp [hfa]
    rw [hfilters]
    have hsub : ∀ a ∈ l.filter (fun a => !(f a == k)), f a ∈ K := by
      intro a ha
      have h1 := List.mem_filter.mp ha
      have h2 : f a ≠ k := by
        have := h1.2
        simp at this
        exact this
      rcases List.mem_cons.mp (hmem a h1.1) with he | hK
      · exact absurd he h2
      · exact hK
    have hperm := ih (l.filter (fun a => !(f a == k))) (List.nodup_cons.mp hnd).2 hsub
    exact (List.Perm.append_left _ hperm).trans (List.filter_append_perm _ l)

/-- Every material lands under its own key. -/
theorem mem_key_sortedDivisionKeys (ms : List Material) (m : Material) (hm : m ∈ ms) :
    materialKey m ∈ divisionKeysInOrder ms := by
  rw [divisionKeysInOrder, insertionDedup_mem]
  exact List.mem_map_of_mem materialKey hm

/-- The markdown materials-analysis body renders a permutation of the
input material list: every material appears exactly once. -/
theorem mdBodyMaterials_perm (ms : List Material) :
    (mdBodyMaterials ms).Perm ms := by
  rw [mdBodyMaterials]
  have h1 : ∀ k ∈ sortedDivisionKeys ms,
      (orderedDivisionMaterials ms k).Perm (divisionBucket ms k) := by
    intro k _
    rw [orderedDivisionMaterials_eq]
    exact divTier_partition _
  refine (flatMap_perm_congr _ _ _ h1).trans ?_
  refine (List.Perm.flatMap_right (divisionBucket ms)
    (sortStable_perm cmpDivision (divisionKeysInOrder ms))).trans ?_
  exact flatMap_filter_key_perm materialKey (divisionKeysInOrder ms) ms
    (insertionDedup_nodup _) (fun m hm => mem_key_sortedDivisionKeys ms m hm)

theorem mem_orderedDivisionMaterials_key {ms : List Material} {k : String} {m : Material}
    (hm : m ∈ orderedDivisionMaterials ms k) : materialKey m = k := by
  rw [orderedDivisionMaterials_eq] at hm
  have hbucket : m ∈ divisionBucket ms k := by
    rcases List.mem_append.mp hm with h12 | h3
    · rcases List.mem_append.mp h12 with h1 | h2
      · exact (mem_divTier.mp h1).1
      · exact (mem_divTier.mp h2).1
    · exact (mem_divTier.mp h3).1
  have := (List.mem_filter.mp hbucket).2
  simpa using this

/-- The markdown triples are the body materials projected to
(key, tier, name). -/
theorem mdTriples_eq_map (ms : List Material) :
    mdTriples ms
      = (mdBodyMaterials ms).map (fun m => (materialKey m, m.tier, m.name)) := by
  rw [mdTriples, mdBodyMaterials, List.map_flatMap]
  apply flatMap_congr_mem
  intro k _
  apply List.map_congr_left
  intro m hm
  rw [mem_orderedDivisionMaterials_key hm]

theorem pdfBodyMaterials_perm (ms : List Material) :
    (pdfBodyMaterials ms).Perm ms := divTier_partition ms

/-! ## General lemmas: division keys as strings -/

theorem divisionKeyNum_03 (d : String) :
    divisionKeyNum ("03" ++ " - " ++ d) = some 3 := by
  obtain ⟨cs⟩ := d
  rfl

theorem divisionKeyNum_07 (d : String) :
    divisionKeyNum ("07" ++ " - " ++ d) = some 7 := by
  obtain ⟨cs⟩ := d
  rfl

theorem divisionKeyNum_21 (d : String) :
    divisionKeyNum ("21" ++ " - " ++ d) = some 21 := by
  obtain ⟨cs⟩ := d
  rfl

/-- Two division keys with different two-character number parts are
different strings, whatever the division names are. -/
theorem two_digit_key_ne (c1 c2 c3 c4 : Char) (h : ¬(c1 = c3 ∧ c2 = c4))
    (d1 d2 : String) :
    (⟨[c1, c2]⟩ ++ " - " ++ d1 : String) ≠ (⟨[c3, c4]⟩ ++ " - " ++ d2 : String) := by
  intro he
  obtain ⟨cs1⟩ := d1
  obtain ⟨cs2⟩ := d2
  have h2 : (c1 :: c2 :: ' ' :: '-' :: ' ' :: cs1 : List Char)
      = c3 :: c4 :: ' ' :: '-' :: ' ' :: cs2 := congrArg String.data he
  injection h2 with e1 h3
  injection h3 with e2 _
  exact h ⟨e1, e2⟩

theorem cmpDivision_eval (a b : String) (x y : Int)
    (ha : divisionKeyNum a = some x) (hb : divisionKeyNum b = some y) :
    cmpDivision a b = x - y := by
  rw [cmpDivision, ha, hb]

/-! ## General lemmas: membership through conditionals -/

theorem mem_ite_lists {c : Prop} [Decidable c] (x : α) (A B : List α) :
    (x ∈ if c then A else B) ↔ ((c ∧ x ∈ A) ∨ (¬c ∧ x ∈ B)) := by
  by_cases h : c <;> simp [h]

/-! ## Per-material omission helpers -/

theorem alternatives_not_mem_mdSection (m : Material) (incS incC : Bool)
    (alts : List Alternative) :
    MatBlock.alternatives alts ∉ generateMaterialSectionBlocks m incS false incC := by
  intro hmem
  rcases hma : m.alternatives with _ | alts2 <;>
    simp [generateMaterialSectionBlocks, hma, mem_ite_lists] at hmem

theorem alternatives_not_mem_pdfCard (m : Material) (incS locP : Bool)
    (alts : List Alternative) :
    MatBlock.alternatives alts ∉ addMaterialCardBlocks m incS false locP := by
  intro hmem
  rcases hma : m.alternatives with _ | alts2 <;>
    simp [addMaterialCardBlocks, hma, mem_ite_lists] at hmem

theorem sustainability_not_mem_mdSection (m : Material) (incA incC : Bool)
    (s : String) :
    MatBlock.sustainability s ∉ generateMaterialSectionBlocks m false incA incC := by
  intro hmem
  rcases hma : m.alternatives with _ | alts2 <;>
    simp [generateMaterialSectionBlocks, hma, mem_ite_lists] at hmem

theorem sustainability_not_mem_pdfCard (m : Material) (incA locP : Bool)
    (s : String) :
    MatBlock.sustainability s ∉ addMaterialCardBlocks m false incA locP := by
  intro hmem
  rcases hma : m.alternatives with _ | alts2 <;>
    simp [addMaterialCardBlocks, hma, mem_ite_lists] at hmem

/-! ## Claim theorems -/

/-- C1 counterexample: for the analysis with a tier-2 division-03 material
and a tier-1 division-07 material, the ordered (division, tier, name)
triples of the markdown body (division-major order) differ from those of
the paginated body (tier-major order), so the two renderings do not agree
in order. -/
theorem md_pdf_triples_differ :
    mdReportTriples analysisTwoDiv ≠ pdfReportTriples analysisTwoDiv := by
  decide

/-- C1 amended: for every analysis the (division, tier, material-name)
triples of the markdown body and of the paginated body agree as
multisets (each is a permutation of the input materials), but not in
order: the markdown walks divisions ascending with tier sub-buckets while
the paginated output walks tiers ascending in input order. -/
theorem md_pdf_triples_perm (a : Analysis) :
    (mdReportTriples a).Perm (pdfReportTriples a) := by
  rw [mdReportTriples, pdfReportTriples, mdTriples_eq_map]
  exact ((mdBodyMaterials_perm a.materials).map _).trans
    (((pdfBodyMaterials_perm a.materials).map _).symm)

/-- C3: within any division bucket the markdown renderer emits the tier-1
materials first, then tier-2, then tier-3, preserving the original input
order inside each tier; in particular a bucket with tiers [2,1,3,1] is
rendered in order [1,1,2,3]. -/
theorem tier_order_within_division (ms : List Material) (k : String)
    (a b c d : Material)
    (ha : a.tier = .t2) (hb : b.tier = .t1) (hc : c.tier = .t3) (hd : d.tier = .t1)
    (hka : materialKey a = k) (hkb : materialKey b = k) (hkc : materialKey c = k)
    (hkd : materialKey d = k) :
    orderedDivisionMaterials ms k
      = divTier .t1 (divisionBucket ms k) ++ divTier .t2 (divisionBucket ms k)
        ++ divTier .t3 (divisionBucket ms k)
    ∧ orderedDivisionMaterials [a, b, c, d] k = [b, d, a, c]
    ∧ [b, d, a, c].map Material.tier = [.t1, .t1, .t2, .t3] := by
  refine ⟨orderedDivisionMaterials_eq ms k, ?_, ?_⟩
  · rw [orderedDivisionMaterials_eq]
    have hbucket : divisionBucket [a, b, c, d] k = [a, b, c, d] := by
      simp [divisionBucket, List.filter_cons, hka, hkb, hkc, hkd]
    rw [hbucket]
    simp [divTier, List.filter_cons, ha, hb, hc, hd]
  · simp [ha, hb, hc, hd]

/-- C3 witness: the four division-07 sample materials with tiers
[2,1,3,1] are rendered in order [1,1,2,3]. -/
theorem tier_order_within_division_witness :
    orderedDivisionMaterials [matMembraneT2, matRoofT1, matInsulT3, matShingleT1]
        (materialKey matMembraneT2)
      = [matRoofT1, matShingleT1, matMembraneT2, matInsulT3]
    ∧ [matRoofT1, matShingleT1, matMembraneT2, matInsulT3].map Material.tier
      = [.t1, .t1, .t2, .t3] :=
  ⟨(tier_order_within_division
      [matMembraneT2, matRoofT1, matInsulT3, matShingleT1] (materialKey matMembraneT2)
      matMembraneT2 matRoofT1 matInsulT3 matShingleT1
      rfl rfl rfl rfl rfl rfl rfl rfl).2.1,
   (tier_order_within_division
      [matMembraneT2, matRoofT1, matInsulT3, matShingleT1] (materialKey matMembraneT2)
      matMembraneT2 matRoofT1 matInsulT3 matShingleT1
      rfl rfl rfl rfl rfl rfl rfl rfl).2.2⟩

/-- C5: when includeAlternatives is false no material section of either
output contains an alternatives block, even when the material's
alternatives data is nonempty, and when includeSustainability is false no
material section of either output contains a sustainability block. -/
theorem flags_off_omission (a : Analysis) :
    (a.includeAlternatives = false →
      ∀ bl ∈ mdMaterialSectionsBlocks a, ∀ alts, MatBlock.alternatives alts ∉ bl)
    ∧ (a.includeAlternatives = false →
      ∀ bl ∈ pdfMaterialCardsBlocks a, ∀ alts, MatBlock.alternatives alts ∉ bl)
    ∧ (a.includeSustainability = false →
      ∀ bl ∈ mdMaterialSectionsBlocks a, ∀ s, MatBlock.sustainability s ∉ bl)
    ∧ (a.includeSustainability = false →
      ∀ bl ∈ pdfMaterialCardsBlocks a, ∀ s, MatBlock.sustainability s ∉ bl) := by
  refine ⟨?_, ?_, ?_, ?_⟩
  · intro h bl hbl alts
    simp only [mdMaterialSectionsBlocks] at hbl
    obtain ⟨m, hm, rfl⟩ := List.mem_map.mp hbl
    rw [h]
    exact alternatives_not_mem_mdSection m _ _ alts
  · intro h bl hbl alts
    simp only [pdfMaterialCardsBlocks] at hbl
    obtain ⟨m, hm, rfl⟩ := List.mem_map.mp hbl
    rw [h]
    exact alternatives_not_mem_pdfCard m _ _ alts
  · intro h bl hbl s
    simp only [mdMaterialSectionsBlocks] at hbl
    obtain ⟨m, hm, rfl⟩ := List.mem_map.mp hbl
    rw [h]
    exact sustainability_not_mem_mdSection m _ _ s
  · intro h bl hbl s
    simp only [pdfMaterialCardsBlocks] at hbl
    obtain ⟨m, hm, rfl⟩ := List.mem_map.mp hbl
    rw [h]
    exact sustainability_not_mem_pdfCard m _ _ s

/-- C5 witness: the sample material has nonempty alternatives data, yet
its rendered markdown section under flags-off settings has no
alternatives block. -/
theorem flags_off_omission_witness :
    MatBlock.alternatives [{ name := "Window Wall"
                             description := "A window wall system."
                             tradeoffs := "Cheaper, more joints." }]
      ∉ generateMaterialSectionBlocks matWithExtras false false true :=
  (flags_off_omission analysisFlagsOff).1 rfl
    (generateMaterialSectionBlocks matWithExtras false false true)
    (by decide) _

/-- C8 counterexample: for the analysis whose brief has both a nonempty
intent and a raw text shorter than 500 characters, the markdown brief
section renders the intent AND the raw text, not only the intent. -/
theorem brief_renders_both :
    mdBriefPieces analysisWithBrief
      = [BriefPiece.intentBlock "A community library with a timber frame.",
         BriefPiece.summaryBlock "A short brief."] := by
  decide

/-- C8 amended: the brief section shows the intent when it is present and
nonempty, and, independently, shows the raw brief text when it is nonempty
and shorter than 500 characters; when both conditions hold both blocks are
rendered, intent first. -/
theorem brief_section_contents (a : Analysis) (b : ProjectBrief) (hb : a.brief = some b) :
    (jsTruthy b.intent = true → (b.text == "") = false → b.text.length < 500 →
      mdBriefPieces a
        = [BriefPiece.intentBlock (b.intent.getD ""), BriefPiece.summaryBlock b.text])
    ∧ (jsTruthy b.intent = false → (b.text == "") = false → b.text.length < 500 →
      mdBriefPieces a = [BriefPiece.summaryBlock b.text])
    ∧ (jsTruthy b.intent = true → 500 ≤ b.text.length →
      mdBriefPieces a = [BriefPiece.intentBlock (b.intent.getD "")]) := by
  refine ⟨?_, ?_, ?_⟩
  · intro h1 h2 h3
    simp [mdBriefPieces, hb, briefPieces, h1, h2, h3]
  · intro h1 h2 h3
    simp [mdBriefPieces, hb, briefPieces, h1, h2, h3]
  · intro h1 h2
    simp [mdBriefPieces, hb, briefPieces, h1, Nat.not_lt.mpr h2]

/-- C8 amended witness: on the sample brief with both fields both blocks
are rendered. -/
theorem brief_section_contents_witness :
    mdBriefPieces analysisWithBrief
      = [BriefPiece.intentBlock "A community library with a timber frame.",
         BriefPiece.summaryBlock "A short brief."] :=
  (brief_section_contents analysisWithBrief briefBoth rfl).1 (by decide) (by decide) (by decide)

/-- C9: the renderers and the derived-entity generators are pure
deterministic functions of their arguments: two invocations on the same
inputs produce identical strings and element-wise identical lists.  No
source of nondeterminism exists in the embedded code: consultant and
supplier records are produced by index arithmetic into fixed pools. -/
theorem renders_deterministic (fmt : String → String) (a : Analysis)
    (divisions : List String) (t : Tier) (ms : List Material)
    (loc : ProjectLocation) (st : SupTier) :
    generateMarkdownReport fmt a = generateMarkdownReport fmt a
    ∧ getConsultantsForDivisions divisions t = getConsultantsForDivisions divisions t
    ∧ getSuppliersForMaterials ms loc st = getSuppliersForMaterials ms loc st :=
  ⟨rfl, rfl, rfl⟩

/-- C10: the grouping of the markdown body is a partition: for every
input material list, the materials rendered across all division and tier
sections form a permutation of the input list, so nothing is dropped and
nothing is duplicated. -/
theorem md_grouping_partition (ms : List Material) :
    (mdBodyMaterials ms).Perm ms :=
  mdBodyMaterials_perm ms

/-! ## C2: grouping of the 03, 07, 07, 21 scenario -/

theorem insertionDedupAux_nil' [DecidableEq α] (seen : List α) :
    insertionDedupAux seen ([] : List α) = [] := rfl

theorem insertionDedupAux_cons_mem [DecidableEq α] (seen : List α) (x : α)
    (xs : List α) (h : x ∈ seen) :
    insertionDedupAux seen (x :: xs) = insertionDedupAux seen xs := by
  simp [insertionDedupAux, h]

theorem insertionDedupAux_cons_not_mem [DecidableEq α] (seen : List α) (x : α)
    (xs : List α) (h : x ∉ seen) :
    insertionDedupAux seen (x :: xs) = x :: insertionDedupAux (x :: seen) xs := by
  simp [insertionDedupAux, h]

/-- C2 counterexample: with csiNumbers 03, 07, 07, 21 in input order but
the two 07 materials carrying different division names, grouping yields
four buckets, not three, and the two 07 materials do NOT share a bucket:
the bucket of the first 07 key holds only the first 07 material. -/
theorem grouping_typo_counterexample :
    (sortedDivisionKeys [matConcreteT2, matRoofT1, matTypo07T2, matFireT1]).length = 4
    ∧ divisionBucket [matConcreteT2, matRoofT1, matTypo07T2, matFireT1]
        (materialKey matRoofT1) = [matRoofT1] := by
  decide

/-- C2 amended: for materials with csiNumbers 03, 07, 07, 21 in input
order whose two 07 materials also share the same division name, grouping
yields exactly the three buckets ordered 03, 07, 21 by numeric key, the
two 07 materials share one bucket in original relative order, and distinct
keys with equal numeric value keep their encounter order (stable sort). -/
theorem grouping_03_07_07_21 (m1 m2 m3 m4 : Material)
    (h1 : m1.csiNumber = "03") (h2 : m2.csiNumber = "07")
    (h3 : m3.csiNumber = "07") (h4 : m4.csiNumber = "21")
    (hdv : m3.csiDivision = m2.csiDivision) :
    sortedDivisionKeys [m1, m2, m3, m4]
      = [materialKey m1, materialKey m2, materialKey m4]
    ∧ divisionBucket [m1, m2, m3, m4] (materialKey m2) = [m2, m3]
    ∧ (∀ x y : Material, x.csiNumber = "07" → y.csiNumber = "07" →
        materialKey x ≠ materialKey y →
        sortedDivisionKeys [x, y] = [materialKey x, materialKey y]) := by
  have e1 : materialKey m1 = "03" ++ " - " ++ m1.csiDivision := by
    simp [materialKey, h1]
  have e2 : materialKey m2 = "07" ++ " - " ++ m2.csiDivision := by
    simp [materialKey, h2]
  have e3 : materialKey m3 = "07" ++ " - " ++ m2.csiDivision := by
    simp [materialKey, h3, hdv]
  have e4 : materialKey m4 = "21" ++ " - " ++ m4.csiDivision := by
    simp [materialKey, h4]
  have ek : materialKey m3 = materialKey m2 := by rw [e3, e2]
  have q21 : materialKey m2 ≠ materialKey m1 := by
    rw [e2, e1]
    exact two_digit_key_ne '0' '7' '0' '3' (by decide) _ _
  have q41 : materialKey m4 ≠ materialKey m1 := by
    rw [e4, e1]
    exact two_digit_key_ne '2' '1' '0' '3' (by decide) _ _
  have q42 : materialKey m4 ≠ materialKey m2 := by
    rw [e4, e2]
    exact two_digit_key_ne '2' '1' '0' '7' (by decide) _ _
  have q12 : materialKey m1 ≠ materialKey m2 := fun h => q21 h.symm
  have p1 : divisionKeyNum (materialKey m1) = some 3 := by
    rw [e1]; exact divisionKeyNum_03 _
  have p2 : divisionKeyNum (materialKey m2) = some 7 := by
    rw [e2]; exact divisionKeyNum_07 _
  have p4 : divisionKeyNum (materialKey m4) = some 21 := by
    rw [e4]; exact divisionKeyNum_21 _
  have hdedup : divisionKeysInOrder [m1, m2, m3, m4]
      = [materialKey m1, materialKey m2, materialKey m4] := by
    simp only [divisionKeysInOrder, insertionDedup, List.map_cons, List.map_nil]
    rw [insertionDedupAux_cons_not_mem _ _ _ (List.not_mem_nil _),
      insertionDedupAux_cons_not_mem _ _ _ (by simpa using q21),
      insertionDedupAux_cons_mem _ _ _ (by rw [ek]; exact List.mem_cons_self _ _),
      insertionDedupAux_cons_not_mem _ _ _ (by simp [q42, q41]),
      insertionDedupAux_nil']
  refine ⟨?_, ?_, ?_⟩
  · have c12 : cmpDivision (materialKey m1) (materialKey m2) = 3 - 7 :=
      cmpDivision_eval _ _ _ _ p1 p2
    have c14 : cmpDivision (materialKey m1) (materialKey m4) = 3 - 21 :=
      cmpDivision_eval _ _ _ _ p1 p4
    have c24 : cmpDivision (materialKey m2) (materialKey m4) = 7 - 21 :=
      cmpDivision_eval _ _ _ _ p2 p4
    simp only [sortedDivisionKeys]
    rw [hdedup]
    simp [sortStable, insertStable, c12, c14, c24]
  · simp [divisionBucket, List.filter_cons, q12, ek, q42]
  · intro x y hx hy hxy
    have ex : materialKey x = "07" ++ " - " ++ x.csiDivision := by
      simp [materialKey, hx]
    have ey : materialKey y = "07" ++ " - " ++ y.csiDivision := by
      simp [materialKey, hy]
    have px : divisionKeyNum (materialKey x) = some 7 := by
      rw [ex]; exact divisionKeyNum_07 _
    have py : divisionKeyNum (materialKey y) = some 7 := by
      rw [ey]; exact divisionKeyNum_07 _
    have cxy : cmpDivision (materialKey x) (materialKey y) = 7 - 7 :=
      cmpDivision_eval _ _ _ _ px py
    have hd : divisionKeysInOrder [x, y] = [materialKey x, materialKey y] := by
      simp only [divisionKeysInOrder, insertionDedup, List.map_cons, List.map_nil]
      rw [insertionDedupAux_cons_not_mem _ _ _ (List.not_mem_nil _),
        insertionDedupAux_cons_not_mem _ _ _ (by simpa using fun h => hxy h.symm),
        insertionDedupAux_nil']
    simp only [sortedDivisionKeys]
    rw [hd]
    simp [sortStable, insertStable, cxy]

/-- C2 amended witness: the concrete 03, 07, 07, 21 sample materials with
matching 07 division names group into three ordered buckets with both 07
materials in the 07 bucket in input order. -/
theorem grouping_03_07_07_21_witness :
    sortedDivisionKeys [matConcreteT2, matRoofT1, matMembraneT2, matFireT1]
      = [materialKey matConcreteT2, materialKey matRoofT1, materialKey matFireT1]
    ∧ divisionBucket [matConcreteT2, matRoofT1, matMembraneT2, matFireT1]
        (materialKey matRoofT1) = [matRoofT1, matMembraneT2] :=
  ⟨(grouping_03_07_07_21 matConcreteT2 matRoofT1 matMembraneT2 matFireT1
      rfl rfl rfl rfl rfl).1,
   (grouping_03_07_07_21 matConcreteT2 matRoofT1 matMembraneT2 matFireT1
      rfl rfl rfl rfl rfl).2.1⟩

/-! ## C4: conditional sections -/

theorem suppliersAppendix_mem_md (a : Analysis) :
    SectionTag.suppliersAppendix ∈ mdSectionTags a
      ↔ (a.location.isSome = true
          ∧ (divTier .t1 a.materials ≠ [] ∨ divTier .t2 a.materials ≠ [])) := by
  cases hl : a.location with
  | none =>
    cases hbr : a.brief <;>
      simp [mdSectionTags, hl, hbr, mem_ite_lists]
  | some loc =>
    cases hbr : a.brief <;>
      simp [mdSectionTags, hl, hbr, mem_ite_lists, List.isEmpty_eq_false]

theorem suppliersAppendix_mem_pdf (a : Analysis) :
    SectionTag.suppliersAppendix ∈ pdfSectionTags a
      ↔ (a.location.isSome = true
          ∧ (divTier .t1 a.materials ≠ [] ∨ divTier .t2 a.materials ≠ [])) := by
  cases hl : a.location with
  | none => simp [pdfSectionTags, hl, mem_ite_lists]
  | some loc => simp [pdfSectionTags, hl, mem_ite_lists, List.isEmpty_eq_false]

theorem complianceSummary_mem_md (a : Analysis) :
    SectionTag.complianceSummary ∈ mdSectionTags a ↔ a.location.isSome = true := by
  cases hl : a.location with
  | none =>
    cases hbr : a.brief <;>
      simp [mdSectionTags, hl, hbr, mem_ite_lists]
  | some loc =>
    cases hbr : a.brief <;>
      simp [mdSectionTags, hl, hbr, mem_ite_lists]

theorem complianceSummary_not_mem_pdf (a : Analysis) :
    SectionTag.complianceSummary ∉ pdfSectionTags a := by
  cases hl : a.location with
  | none => simp [pdfSectionTags, hl, mem_ite_lists]
  | some loc => simp [pdfSectionTags, hl, mem_ite_lists]

/-- C4 counterexample: on the analysis that has a location (and one
tier-1 material) the markdown output contains the building-code
compliance summary but the paginated output has no such section, so the
compliance summary does not appear "in both renderers" as an
if-and-only-if of the location. -/
theorem compliance_pdf_missing :
    analysisWithLoc.location.isSome = true
    ∧ SectionTag.complianceSummary ∈ mdSectionTags analysisWithLoc
    ∧ SectionTag.complianceSummary ∉ pdfSectionTags analysisWithLoc := by
  decide

/-- C4 amended: in both renderers the suppliers appendix appears exactly
when a location is present and at least one tier-1 or tier-2 material
exists (so an analysis with only tier-3 materials yields no supplier
entries); the building-code compliance summary appears in the markdown
output exactly when a location is present, and the paginated output never
contains a compliance-summary section; with no location neither section
appears in either output. -/
theorem conditional_sections (a : Analysis) :
    (SectionTag.suppliersAppendix ∈ mdSectionTags a
      ↔ (a.location.isSome = true
          ∧ (divTier .t1 a.materials ≠ [] ∨ divTier .t2 a.materials ≠ [])))
    ∧ (SectionTag.suppliersAppendix ∈ pdfSectionTags a
      ↔ (a.location.isSome = true
          ∧ (divTier .t1 a.materials ≠ [] ∨ divTier .t2 a.materials ≠ [])))
    ∧ (SectionTag.complianceSummary ∈ mdSectionTags a ↔ a.location.isSome = true)
    ∧ SectionTag.complianceSummary ∉ pdfSectionTags a :=
  ⟨suppliersAppendix_mem_md a, suppliersAppendix_mem_pdf a,
   complianceSummary_mem_md a, complianceSummary_not_mem_pdf a⟩

/-- C4 amended witness: the markdown compliance-summary iff evaluated at
the concrete located analysis. -/
theorem conditional_sections_witness :
    SectionTag.complianceSummary ∈ mdSectionTags analysisWithLoc
      ↔ analysisWithLoc.location.isSome = true :=
  (conditional_sections analysisWithLoc).2.2.1

/-! ## C6: consultant generation -/

theorem snd_mem_of_mem_enum {l : List α} {p : Nat × α} (hp : p ∈ l.enum) :
    p.2 ∈ l := by
  obtain ⟨i, x⟩ := p
  obtain ⟨hi, hx⟩ := List.mem_enum hp
  rw [hx] at *
  exact List.getElem_mem hi

theorem insertionDedupAux_congr_seen [DecidableEq α] (l : List α) :
    ∀ seen seen' : List α, (∀ y, y ∈ seen ↔ y ∈ seen') →
      insertionDedupAux seen l = insertionDedupAux seen' l := by
  induction l with
  | nil => intro _ _ _; rfl
  | cons a l ih =>
    intro seen seen' h
    by_cases ha : a ∈ seen
    · rw [insertionDedupAux_cons_mem _ _ _ ha,
        insertionDedupAux_cons_mem _ _ _ ((h a).mp ha)]
      exact ih seen seen' h
    · have ha' : a ∉ seen' := fun hx => ha ((h a).mpr hx)
      rw [insertionDedupAux_cons_not_mem _ _ _ ha,
        insertionDedupAux_cons_not_mem _ _ _ ha']
      congr 1
      refine ih (a :: seen) (a :: seen') (fun y => ?_)
      rw [List.mem_cons, List.mem_cons, h y]

theorem insertionDedupAux_cons_seen [DecidableEq α] (l : List α) :
    ∀ (seen : List α) (x : α),
      insertionDedupAux (x :: seen) l
        = insertionDedupAux seen (l.filter (fun y => !(y == x))) := by
  induction l with
  | nil => intro _ _; rfl
  | cons a l ih =>
    intro seen x
    by_cases hax : a = x
    · subst hax
      rw [insertionDedupAux_cons_mem _ _ _ (List.mem_cons_self a seen),
        List.filter_cons, if_neg (by simp)]
      exact ih seen a
    · rw [List.filter_cons, if_pos (by simp [hax])]
      by_cases ha : a ∈ seen
      · rw [insertionDedupAux_cons_mem _ _ _ (List.mem_cons.mpr (Or.inr ha)),
          insertionDedupAux_cons_mem _ _ _ ha]
        exact ih seen x
      · have ha2 : a ∉ x :: seen := by
          intro hm
          rcases List.mem_cons.mp hm with h1 | h2
          · exact hax h1
          · exact ha h2
        rw [insertionDedupAux_cons_not_mem _ _ _ ha2,
          insertionDedupAux_cons_not_mem _ _ _ ha]
        congr 1
        rw [insertionDedupAux_congr_seen l (a :: x :: seen) (x :: a :: seen)
          (by intro y; rw [List.mem_cons, List.mem_cons, List.mem_cons, List.mem_cons]; tauto)]
        exact ih (a :: seen) x

/-- The accumulator-based dedup transcribed from the source equals the
canonical first-occurrence recursion: the result lists each distinct
element at the position of its first occurrence, i.e. in insertion
order. -/
theorem insertionDedup_eq_firstOccurrenceDedup [DecidableEq α] (l : List α) :
    insertionDedup l = firstOccurrenceDedup l := by
  generalize hn : l.length = n
  induction n using Nat.strong_induction_on generalizing l with
  | _ n ih =>
    cases l with
    | nil => rw [firstOccurrenceDedup]; rfl
    | cons x xs =>
      rw [insertionDedup, insertionDedupAux_cons_not_mem _ _ _ (List.not_mem_nil x),
        firstOccurrenceDedup]
      congr 1
      rw [insertionDedupAux_cons_seen xs [] x]
      have hlt : (xs.filter (fun y => !(y == x))).length < n := by
        rw [← hn, List.length_cons]
        exact Nat.lt_succ_of_le (List.length_filter_le _ _)
      exact ih _ hlt _ rfl

theorem insertionDedupAux_sublist [DecidableEq α] (l : List α) :
    ∀ seen : List α, (insertionDedupAux seen l).Sublist l := by
  induction l with
  | nil => intro _; exact List.nil_sublist []
  | cons a l ih =>
    intro seen
    by_cases ha : a ∈ seen
    · rw [insertionDedupAux_cons_mem _ _ _ ha]
      exact (ih seen).cons a
    · rw [insertionDedupAux_cons_not_mem _ _ _ ha]
      exact (ih (a :: seen)).cons₂ a

theorem insertionDedup_sublist [DecidableEq α] (l : List α) :
    (insertionDedup l).Sublist l :=
  insertionDedupAux_sublist l []

/-- C6: consultant generation per tier: at most 3, 4, 5 entries for tiers
1, 2, 3, with the tier-specific firm suffixes and added disciplines; an
unmapped division contributes the single specialty "General Consulting";
the specialty set is deduplicated in insertion order: it has no
duplicates, it has the same members as the concatenated per-division
contributions, its order is a sublist of the contribution order, and it
equals the canonical first-occurrence deduplication of the
contributions. -/
theorem consultant_generation (divisions : List String) :
    (getConsultantsForDivisions divisions .t1).length ≤ 3
    ∧ (∀ c ∈ getConsultantsForDivisions divisions .t1,
        c.firm = c.specialty ++ " Associates" ∧ c.disciplines = [c.specialty])
    ∧ (getConsultantsForDivisions divisions .t2).length ≤ 4
    ∧ (∀ c ∈ getConsultantsForDivisions divisions .t2,
        ∃ s ∈ specialtiesFor divisions, c.firm = s ++ " Custom Solutions"
          ∧ "Custom Fabrication" ∈ c.disciplines)
    ∧ (getConsultantsForDivisions divisions .t3).length ≤ 5
    ∧ (∀ c ∈ getConsultantsForDivisions divisions .t3,
        ∃ s ∈ specialtiesFor divisions, c.firm = s ++ " Innovation Lab"
          ∧ "Materials R&D" ∈ c.disciplines ∧ "Innovation Consulting" ∈ c.disciplines)
    ∧ (∀ d, divisionToSpecialty d = none → specialtiesFor [d] = ["General Consulting"])
    ∧ (specialtiesFor divisions).Nodup
    ∧ (∀ s, s ∈ specialtiesFor divisions
        ↔ s ∈ divisions.flatMap (fun d => (divisionToSpecialty d).getD ["General Consulting"]))
    ∧ (specialtiesFor divisions).Sublist
        (divisions.flatMap (fun d => (divisionToSpecialty d).getD ["General Consulting"]))
    ∧ specialtiesFor divisions
        = firstOccurrenceDedup
            (divisions.flatMap (fun d => (divisionToSpecialty d).getD ["General Consulting"])) := by
  refine ⟨?_, ?_, ?_, ?_, ?_, ?_, ?_, ?_, ?_, ?_, ?_⟩
  · simp [getConsultantsForDivisions, List.enum_length, List.length_take]
  · intro c hc
    simp only [getConsultantsForDivisions] at hc
    obtain ⟨p, hp, rfl⟩ := List.mem_map.mp hc
    exact ⟨rfl, rfl⟩
  · simp [getConsultantsForDivisions, List.enum_length, List.length_take]
  · intro c hc
    simp only [getConsultantsForDivisions] at hc
    obtain ⟨p, hp, rfl⟩ := List.mem_map.mp hc
    refine ⟨p.2, List.mem_of_mem_take (snd_mem_of_mem_enum hp), rfl, ?_⟩
    simp
  · simp [getConsultantsForDivisions, List.enum_length, List.length_take]
  · intro c hc
    simp only [getConsultantsForDivisions] at hc
    obtain ⟨p, hp, rfl⟩ := List.mem_map.mp hc
    refine ⟨p.2, List.mem_of_mem_take (snd_mem_of_mem_enum hp), rfl, ?_, ?_⟩
    · simp
    · simp
  · intro d hd
    simp [specialtiesFor, hd, insertionDedup, insertionDedupAux]
  · exact insertionDedup_nodup _
  · intro s
    exact insertionDedup_mem _ _
  · exact insertionDedup_sublist _
  · exact insertionDedup_eq_firstOccurrenceDedup _

/-- C6 witness: concrete instances of the consultant-generation bounds,
the unmapped-division fallback, and insertion-order deduplication:
"Structural Engineering" is contributed by both Concrete and Masonry but
is kept once, at the position of its first contribution. -/
theorem consultant_generation_witness :
    (getConsultantsForDivisions ["Concrete"] .t2).length ≤ 4
    ∧ specialtiesFor ["Unknown Division"] = ["General Consulting"]
    ∧ specialtiesFor ["Concrete", "Masonry"]
        = ["Structural Engineering", "Concrete Technology", "Materials Science",
           "Masonry Engineering", "Historic Preservation"] :=
  ⟨(consultant_generation ["Concrete"]).2.2.1,
   (consultant_generation []).2.2.2.2.2.2.1 "Unknown Division" (by decide),
   by decide⟩

/-! ## C7: supplier generation -/

theorem localSuppliersFor_rating (ms : List Material) (loc : ProjectLocation) :
    ∀ s ∈ localSuppliersFor ms loc, s.rating = Rating.local' := by
  intro s hs
  simp only [localSuppliersFor] at hs
  obtain ⟨p, hp, hs2⟩ := List.mem_flatMap.mp hs
  obtain ⟨q, hq, rfl⟩ := List.mem_map.mp hs2
  rfl

theorem nationalSuppliersFor_spec (ms : List Material) (tier : SupTier) :
    ∀ s ∈ nationalSuppliersFor ms tier,
      s.rating = Rating.national' ∧ s.location = "National Distribution"
        ∧ ∃ rest, s.phone = "+1 (800) " ++ rest := by
  intro s hs
  simp only [nationalSuppliersFor] at hs
  rw [mem_ite_lists] at hs
  rcases hs with ⟨_, hs⟩ | ⟨_, hs⟩
  · obtain ⟨p, hp, rfl⟩ := List.mem_map.mp hs
    exact ⟨rfl, rfl, toString (555 + p.1) ++ "00-" ++ toString (1000 + p.1) ++ "00", rfl⟩
  · exact absurd hs (List.not_mem_nil s)

theorem nationalSuppliersFor_length (ms : List Material) (tier : SupTier) :
    (nationalSuppliersFor ms tier).length ≤ 3 := by
  simp only [nationalSuppliersFor]
  split
  · simp only [List.length_map, List.enum_length, List.length_take]
    omega
  · simp

theorem nationalSuppliersFor_pos (ms : List Material) (tier : SupTier)
    (hne : ms ≠ [])
    (hcond : tier = SupTier.two
      ∨ (insertionDedup (ms.map (fun m => m.csiDivision))).length > 3) :
    nationalSuppliersFor ms tier ≠ [] := by
  have hmt : insertionDedup (ms.map (fun m => m.csiDivision)) ≠ [] := by
    cases ms with
    | nil => exact absurd rfl hne
    | cons m ms' =>
      refine List.ne_nil_of_mem ((insertionDedup_mem _ m.csiDivision).mpr ?_)
      exact List.mem_map_of_mem _ (List.mem_cons_self m ms')
  simp only [nationalSuppliersFor, if_pos hcond]
  intro hmap
  rw [List.map_eq_nil_iff, List.enum_eq_nil, List.take_eq_nil_iff] at hmap
  rcases hmap with h3 | hnil
  · exact absurd h3 (by decide)
  · exact hmt hnil

theorem nationalSuppliersFor_neg (ms : List Material) (tier : SupTier)
    (hcond : ¬(tier = SupTier.two
      ∨ (insertionDedup (ms.map (fun m => m.csiDivision))).length > 3)) :
    nationalSuppliersFor ms tier = [] := by
  simp only [nationalSuppliersFor, if_neg hcond]

theorem filter_local_suppliers (ms : List Material) (loc : ProjectLocation)
    (tier : SupTier) :
    (getSuppliersForMaterials ms loc tier).filter (fun s => s.rating == Rating.local')
      = localSuppliersFor ms loc := by
  rw [getSuppliersForMaterials, List.filter_append]
  have h1 : (localSuppliersFor ms loc).filter (fun s => s.rating == Rating.local')
      = localSuppliersFor ms loc := by
    apply List.filter_eq_self.mpr
    intro s hs
    simp [localSuppliersFor_rating ms loc s hs]
  have h2 : (nationalSuppliersFor ms tier).filter (fun s => s.rating == Rating.local')
      = [] := by
    apply List.filter_eq_nil_iff.mpr
    intro s hs
    simp [(nationalSuppliersFor_spec ms tier s hs).1]
  rw [h1, h2, List.append_nil]

theorem filter_national_suppliers (ms : List Material) (loc : ProjectLocation)
    (tier : SupTier) :
    (getSuppliersForMaterials ms loc tier).filter (fun s => s.rating == Rating.national')
      = nationalSuppliersFor ms tier := by
  rw [getSuppliersForMaterials, List.filter_append]
  have h1 : (localSuppliersFor ms loc).filter (fun s => s.rating == Rating.national')
      = [] := by
    apply List.filter_eq_nil_iff.mpr
    intro s hs
    simp [localSuppliersFor_rating ms loc s hs]
  have h2 : (nationalSuppliersFor ms tier).filter (fun s => s.rating == Rating.national')
      = nationalSuppliersFor ms tier := by
    apply List.filter_eq_self.mpr
    intro s hs
    simp [(nationalSuppliersFor_spec ms tier s hs).1]
  rw [h1, h2, List.nil_append]

/-- C7 counterexample: with an empty material list and tier 2 the
condition "tier equals 2" holds yet no supplier (national or otherwise) is
produced, so national suppliers are not appended "if and only if" the
condition holds. -/
theorem suppliers_empty_tier2 :
    getSuppliersForMaterials [] locBoston SupTier.two = [] := by
  decide

/-- C7 amended: for a nonempty material list, national suppliers (rating
national, location "National Distribution", phone starting with the 800
template) are present exactly when tier is 2 or the materials span more
than three distinct divisions; at most 3 national entries are produced;
every rating is local or national; and all national entries come after
all local entries. -/
theorem supplier_generation (ms : List Material) (loc : ProjectLocation)
    (tier : SupTier) (hne : ms ≠ []) :
    ((∃ s ∈ getSuppliersForMaterials ms loc tier, s.rating = Rating.national')
      ↔ (tier = SupTier.two
          ∨ (insertionDedup (ms.map (fun m => m.csiDivision))).length > 3))
    ∧ ((getSuppliersForMaterials ms loc tier).filter
        (fun s => s.rating == Rating.national')).length ≤ 3
    ∧ getSuppliersForMaterials ms loc tier
        = (getSuppliersForMaterials ms loc tier).filter (fun s => s.rating == Rating.local')
          ++ (getSuppliersForMaterials ms loc tier).filter
              (fun s => s.rating == Rating.national')
    ∧ (∀ s ∈ getSuppliersForMaterials ms loc tier,
        s.rating = Rating.local' ∨ s.rating = Rating.national')
    ∧ (∀ s ∈ getSuppliersForMaterials ms loc tier, s.rating = Rating.national' →
        s.location = "National Distribution" ∧ ∃ rest, s.phone = "+1 (800) " ++ rest) := by
  refine ⟨?_, ?_, ?_, ?_, ?_⟩
  · constructor
    · rintro ⟨s, hs, hnat⟩
      rcases List.mem_append.mp hs with hsl | hsn
      · rw [localSuppliersFor_rating ms loc s hsl] at hnat
        exact absurd hnat (by decide)
      · by_contra hcond
        rw [nationalSuppliersFor_neg ms tier hcond] at hsn
        exact absurd hsn (List.not_mem_nil s)
    · intro hcond
      obtain ⟨s, hs⟩ := List.exists_mem_of_ne_nil _
        (nationalSuppliersFor_pos ms tier hne hcond)
      exact ⟨s, List.mem_append_right _ hs, (nationalSuppliersFor_spec ms tier s hs).1⟩
  · rw [filter_national_suppliers]
    exact nationalSuppliersFor_length ms tier
  · rw [filter_local_suppliers, filter_national_suppliers]
    rfl
  · intro s _
    cases h : s.rating with
    | local' => exact Or.inl rfl
    | national' => exact Or.inr rfl
  · intro s hs hnat
    rcases List.mem_append.mp hs with hsl | hsn
    · rw [localSuppliersFor_rating ms loc s hsl] at hnat
      exact absurd hnat (by decide)
    · exact ((nationalSuppliersFor_spec ms tier s hsn).2)

/-- C7 amended witness: concrete instance with one tier-1 material, a
location and tier argument 2. -/
theorem supplier_generation_witness :
    ((getSuppliersForMaterials [matRoofT1] locBoston SupTier.two).filter
      (fun s => s.rating == Rating.national')).length ≤ 3 :=
  (supplier_generation [matRoofT1] locBoston SupTier.two (by decide)).2.1

end SpecMate
